import Mathlib

/-!
Verification of the prompt template-and-contract engine of this repository.

The repository's source consists of three modules, each holding two pure
template functions (`question_format`, `validation_format`) built from one
Python f-string with a single interpolation placeholder.  Each f-string is
embedded below as the list of its lines (split at newline), joined back with
`joinLines`; the template function is then literal concatenation
`pre ++ text ++ suf`, exactly as an f-string with one placeholder evaluates.

Components of the specified engine that are not part of the repository's
source files (the response classifier, the escaper and the registry lookup)
are modelled from the specification's words; each such definition carries a
doc comment starting with `Modelled from the spec:`.
-/

set_option maxRecDepth 8000

/-- Join a list of lines with newline separators (inverse of splitting a text
at newlines): `joinLines ["a", "b"] = "a\nb"`. -/
def joinLines : List String → String
  | [] => ""
  | [l] => l
  | l :: l2 :: ls => l ++ "\n" ++ joinLines (l2 :: ls)

/-- Does `s` start with `p`? (character-list level). -/
def matchesAt : List Char → List Char → Bool
  | [], _ => true
  | _ :: _, [] => false
  | p :: ps, c :: cs => p == c && matchesAt ps cs

/-- Does `p` occur as a contiguous substring of `s`? (character-list level). -/
def containsSub (p : List Char) : List Char → Bool
  | [] => matchesAt p []
  | c :: cs => matchesAt p (c :: cs) || containsSub p cs

/-- `p` occurs as a contiguous substring of `s` (character-list level). -/
def OccC (p s : List Char) : Prop := ∃ a b : List Char, s = a ++ p ++ b

/-- `p` occurs as a contiguous substring of `s` (string level). -/
def OccS (p s : String) : Prop := ∃ a b : String, s = a ++ p ++ b

/-- Lines of the f-string before the `\x7bquestion\x7d` placeholder in `question_format` of src/prompt/golang_cosmos_question.py, split at newlines. -/
def cosmos_q_pre_lines : List String :=
  ["",
   "You are a Web3 Security Researcher. Your task is to analyze the given codebase with a laser focus on this single question:",
   "",
   "**Security Question (scope for this run):** "]

/-- The f-string text before the placeholder in `question_format` of src/prompt/golang_cosmos_question.py. -/
def cosmos_q_pre : String := joinLines cosmos_q_pre_lines

/-- Lines of the f-string after the `\x7bquestion\x7d` placeholder in `question_format` of src/prompt/golang_cosmos_question.py, split at newlines. -/
def cosmos_q_suf_lines : List String :=
  ["",
   "",
   "Your mission:",
   "- Use the security question as your starting point. Investigate all relevant code paths, protocol logic, and assumptions tied to that question, and look for one concrete, exploitable vulnerability. Do not debate the premise of the question; accept it and investigate thoroughly.",
   "- Explore a wide range of realistic input scenarios and edge cases. Test with large and small values (within valid ranges), atypical decimals or data encodings, sequences of actions or messages, and boundary conditions to see how the system’s state changes. When mathematics, cryptography, or accounting are involved, check for rounding errors, overflow/underflow, miscalculations, or invariant violations. Always use inputs that could actually be provided by a real user, contract, or node on-chain or via the network.",
   "- Work through complete flows end-to-end: simulate how an unprivileged actor (e.g., a normal user or an external node) would interact with the system (calling functions, sending transactions or network messages), and trace how the internal state (storage variables, balances, consensus state, etc.) evolves. Consider interactions across modules, libraries, initialization routines, consensus or networking components, and configuration settings.",
   "- If you find a vulnerability, produce a report in the exact format specified below. If **no** valid vulnerability emerges, clearly state: **“#NoVulnerability found for this question.”**",
   "- Do not invent or repeat findings outside the scope of this question. Stay strictly within the defined scope; do not introduce unrelated issues.",
   "- The security question is your starting point. Your job is to investigate the code related to it and identify a concrete, exploitable vulnerability. Do not question the premise; focus logically and deeply on the relevant code.",
   "- Try to find **only ONE** valid vulnerability related to this question, ensuring it clearly ties to the question’s topic.",
   "- Dive deep into the codebase, protocol logic, and underlying assumptions.",
   "",
   "Important rules:",
   "- The vulnerability must be actually triggerable under real-world conditions (on-chain or in-network). Pure logic or invariant violations count only if you can explain exactly how an attacker would leverage them to break the system (not just a theoretical issue with no practical impact).",
   "- Be 100% certain the issue is exploitable. If in doubt, respond with **“#NoVulnerability found for this question.”**",
   "- Focus on unprivileged attack surfaces first (actions by normal users or unauthenticated nodes). If exploiting the issue requires a privileged role (admin keys, validator majority, etc.), then only consider it if there is a subtle logic flaw that could be abused despite trusted actors (do not assume a malicious admin unless the flaw enables escalation).",
   "- Provide a working proof-of-concept using the project’s test framework to demonstrate the exploit whenever possible. If the exploit or its effects cannot be reproduced in a test or simulation (using unit tests, integration tests, or the project’s own testing tools), then the issue is not valid.",
   "- Findings that only improve efficiency, style, or that involve user/administrator error without a security impact are **out of scope**. Also excluded are:",
   "  • Gas or performance optimizations, stylistic/code-quality improvements, or UX enhancements with no security impact.",
   "  • Minor issues in events or view functions that do not affect the protocol’s state or user funds.",
   "  • Missing input validation (e.g., zero-address checks) that only prevents user mistakes; assume users and admins use the system as intended.",
   "  • Admin misconfiguration or reckless admin actions (assume admins and privileged operators are trusted and competent).",
   "  • Blacklisting/whitelisting or emergency pause mechanisms, unless an unprivileged attacker can exploit them.",
   "  • Issues that require front-running or timing outside the intended threat model, if they cause no lasting damage (e.g., a race condition that can be easily reset or has negligible impact).",
   "  • Purely theoretical attacks relying on external failures not caused by this code (e.g., 51% consensus attacks, major network partitions, cryptographic breaks external to this protocol, oracle failures beyond the protocol’s control).",
   "  • Loss of insignificant amounts (“dust”) or scenarios where users only harm themselves (e.g. sending tokens to wrong address) without broader protocol impact.",
   "  • Issues that depend on non-standard or intentionally malicious external components (e.g., specially crafted ERC-20 tokens with unusual behavior) unless explicitly in scope.",
   "  • Duplicate or previously acknowledged issues (if the issue is known and documented as accepted or fixed, it’s not valid to report again).",
   "- Search **all relevant places** in the codebase where the questioned logic might reside (e.g., message handlers, consensus algorithm steps, cryptographic functions, state transition logic, configuration and initialization code). Don’t limit yourself to one file if the logic might be spread across multiple components.",
   "- **Do not go out of scope.** If an issue falls into any of the out-of-scope categories above, do not include it in your report.",
   "- Make sure to provide a valid test case if you find a vulnerability, using the project’s existing testing setup, to prove the issue in action.",
   "- Ensure the vulnerability can actually be triggered; if you cannot demonstrate a scenario where it happens, it is not a valid finding.",
   "- If an issue is more of an informational or theoretical concern with no significant security impact, then it is **not** a reportable vulnerability.",
   "",
   "If you find a vulnerability (and only then), produce a report strictly in the following format. If you do **not** find any valid vulnerability, output **only** the line: `#NoVulnerability found for this question.` (with the hashtag, exactly as shown, and nothing else).",
   "",
   "Audit Report",
   "",
   "## Title",
   "[Clear and specific name of the vulnerability related to the question]",
   "",
   "## Summary",
   "A brief summary of the issue and where in the code it occurs.",
   "",
   "## Impact",
   "Low / Medium / High  (pick the severity based on impact)",
   "",
   "## Finding Description",
   "Explain the vulnerability step by step:",
   "- **Location:** Identify the file and function or module where the issue lies.",
   "- **Intended Behavior:** Describe what the code is supposed to do or what the assumptions are.",
   "- **Actual Behavior:** Describe the flawed logic or condition that breaks the intended behavior.",
   "- **Exploit Scenario:** Explain how an attacker or unprivileged user/node can trigger this vulnerability (the sequence of calls or events).",
   "- **Security Breach:** State which security property is violated (e.g., unauthorized access, fund mis-accounting, consensus failure, denial of service, etc.).",
   "Keep this description concise but factual and convincing.",
   "",
   "## Impact Explanation",
   "Explain the concrete consequences of the exploit: e.g., loss of funds, permanent funds lock, network halt or fork, incorrect accounting, privilege escalation, etc., and why this matters for the protocol.",
   "",
   "## Likelihood Explanation",
   "Discuss how likely this issue is to be encountered or exploited in practice: e.g., can it be triggered by any public user or any node easily? Does it require rare timing or conditions? Is it in a commonly used part of the system or an edge case?",
   "",
   "## Recommendation",
   "Suggest a fix or mitigation: e.g., a code change or additional check to correct the logic. Keep it concise and focus on the core fix (no need for lengthy refactoring suggestions).",
   "",
   "## Proof of Concept",
   "Present a minimal proof-of-concept demonstrating the issue using the project’s own testing framework:",
   "- **Setup:** Describe any initial state or contracts/nodes setup required (e.g., initializing contracts, starting a local chain, specific balances or parameters).",
   "- **Trigger:** Describe the actions or transactions to perform (function calls, messages, or inputs that invoke the vulnerable code).",
   "- **Result:** Describe the observed outcome that indicates the vulnerability (e.g., an incorrect balance change, system panic, consensus divergence, etc.).",
   "- **Test Snippet:** Provide the actual code for a test case or script that reproduces the issue. Specify where this test code should be added (for example, in which test file and function within the repository). The test should use the existing test infrastructure and include assertions that fail due to the bug or show the exploit’s effect.",
   "",
   "If **no** vulnerability is found for the given question, output exactly:",
   "#NoVulnerability found for this question.",
   ""]

/-- The f-string text after the placeholder in `question_format` of src/prompt/golang_cosmos_question.py. -/
def cosmos_q_suf : String := joinLines cosmos_q_suf_lines

/-- Lines of the f-string before the `\x7breport\x7d` placeholder in `validation_format` of src/prompt/golang_cosmos_question.py, split at newlines. -/
def cosmos_v_pre_lines : List String :=
  ["",
   "You are a Senior Web3 Security Researcher (Judge). Your task is **validation** of a single security report/claim for a given question (not grading writing style, but the technical validity of the claim). The string below is the security report/claim you need to investigate and validate:",
   "",
   "SECURITY QUESTION / CLAIM (scope for this run):",
   ""]

/-- The f-string text before the placeholder in `validation_format` of src/prompt/golang_cosmos_question.py. -/
def cosmos_v_pre : String := joinLines cosmos_v_pre_lines

/-- Lines of the f-string after the `\x7breport\x7d` placeholder in `validation_format` of src/prompt/golang_cosmos_question.py, split at newlines. -/
def cosmos_v_suf_lines : List String :=
  ["",
   "",
   "\x3d\x3d\x3d\x3d\x3d\x3d\x3d\x3d\x3d\x3d\x3d\x3d\x3d\x3d\x3d\x3d\x3d\x3d\x3d\x3d\x3d\x3d\x3d\x3d\x3d\x3d\x3d\x3d\x3d\x3d\x3d\x3d\x3d\x3d\x3d\x3d\x3d\x3d\x3d\x3d\x3d\x3d\x3d\x3d\x3d\x3d\x3d\x3d\x3d\x3d\x3d\x3d\x3d\x3d\x3d\x3d\x3d\x3d\x3d\x3d\x3d\x3d\x3d\x3d\x3d\x3d\x3d\x3d\x3d\x3d\x3d\x3d\x3d\x3d\x3d\x3d\x3d\x3d\x3d\x3d\x3d\x3d\x3d\x3d\x3d\x3d\x3d\x3d\x3d\x3d\x3d\x3d\x3d\x3d\x3d\x3d\x3d\x3d\x3d\x3d\x3d\x3d\x3d\x3d\x3d\x3d\x3d\x3d\x3d\x3d\x3d\x3d\x3d\x3d\x3d\x3d\x3d\x3d\x3d\x3d\x3d\x3d\x3d\x3d\x3d\x3d\x3d\x3d\x3d\x3d\x3d\x3d\x3d\x3d\x3d\x3d\x3d\x3d\x3d\x3d\x3d\x3d\x3d\x3d",
   "Your mission (validation phase):",
   "",
   "1) **Treat the above report as a hypothesis** – do not focus on grammar or format of the report itself. Instead, investigate whether the underlying technical claim is a real, exploitable vulnerability in the codebase. You have the codebase and other resources at your disposal to confirm or refute the claim.",
   "",
   "2) **Search and cross-check the codebase and documentation**:",
   "   - Identify all code paths related to the claim: entry points, helper functions, state variables, configuration flags, library calls, consensus flows, etc. Trace how the code is supposed to work versus what the report claims.",
   "   - If available, search any provided knowledge base (DeepWiki or similar) or previous audit reports for mentions of this issue or related components. Note if this vulnerability (or similar) has been reported before or if it\x27s a known/acknowledged issue.",
   "   - Verify any references or hints in the report by looking at the code and tests. Confirm if the described behavior (bug) actually happens in the current code commit.",
   "",
   "3) **Apply platform acceptance rules** – The report is only valid if it describes a genuine vulnerability that meets the program’s criteria. The following are automatic rejection conditions; if **any** apply, you must reject the finding (output `#NoVulnerability found for this question.`):",
   "   - The issue described is solely due to an admin or privileged user misusing their powers (admins are assumed to be trusted and competent). Exception: if the vulnerability allows an attacker to gain those privileges, then it’s valid.",
   "   - The issue is purely about gas efficiency, code style, or a minor UX problem with no security impact.",
   "   - The issue cannot be triggered through any realistic on-chain or network scenario (i.e., no sequence of on-chain calls or network messages can reproduce it).",
   "   - The exploit scenario requires unrealistically assuming control over external systems or keys (e.g., the attacker needs to be a majority miner/validator without the vulnerability enabling that, requires leaked private keys, 51% attacks, Sybil attacks beyond normal assumptions, or other out-of-scope conditions).",
   "   - The report’s described impact contradicts the actual code behavior (e.g., the code already prevents the issue with a require or check that the report missed).",
   "   - The issue relies on non-standard token behavior or external contracts that the protocol does not explicitly support or consider (unless the scope explicitly allows such tokens/contracts).",
   "   - The exact issue is already a known issue or “won’t fix” acknowledged by the team (check documentation or prior reports). If the project documentation or prior audits indicate this is an accepted risk or already fixed, then it’s not a valid new finding.",
   "   - The issue only affects off-chain tooling, test scripts, or documentation with no effect on the on-chain/network security of the system.",
   "   - The alleged vulnerability has no concrete security impact (e.g., it only causes a transaction to revert for the caller, or only results in a benign error, without any loss of funds, breach of trust, or denial of service beyond the immediate call).",
   "",
   "4) **Platform-specific considerations** – Different audit platforms have slightly different requirements. Ensure the finding meets all:",
   "   - **Code4rena/C4**: Requires a clear attack path from an external caller to a vulnerability in the contracts or system, with state changes outlined. A runnable proof-of-concept test is expected for medium/high severity. Admin-only issues or purely theoretical issues are not accepted.",
   "   - **Immunefi**: Prefers vulnerabilities that are exploitable in a deployed environment (on mainnet or testnet) with significant impact (usually financial or security). Low-impact issues or ones that cannot be exploited on-chain are typically not eligible. A proof-of-concept or detailed step-by-step reproduction is required for higher severity findings.",
   "   - **HackenProof DualDefense**: Only Critical severity issues are in scope for rewards. The issue must demonstrate both high impact and high likelihood. A fully working Proof of Concept must be provided at submission time (no later). Lower-severity issues (High/Medium/Low/Info) are generally not accepted in this contest. The report should be clear and include a suggested fix.",
   "   - **Sherlock or others** (if applicable): Require a reproducible exploit and clear explanation. Overlap with above rules: any low-impact or admin-only issues are out. Ensure the finding would meet their severity definitions.",
   "",
   "5) **Language & test harness expectations** – tailor your validation to the codebase’s technology:",
   "   - **Solidity/EVM (smart contracts)**: If applicable, check for a Foundry/Hardhat test or script provided. The PoC should be in Solidity/JavaScript using those frameworks. Confirm that the test transactions in the PoC actually exploit the issue (e.g., by running `forge test` or `npm test` if possible).",
   "   - **Move (Aptos/Sui)**: Expect a Move unit test or a Move prover counterexample demonstrating the bug. Ensure the Move module and script provided actually show the issue when run.",
   "   - **Rust (Soroban/Substrate)**: Expect a Rust unit test (with #[test]) within the module or an integration test. Check that the test uses the project’s framework (like Soroban environment or Substrate node testing) and that it fails or logs an error indicating the vulnerability.",
   "   - **Go (Cosmos SDK or similar L1 client)**: Expect a Go test (for example, a `_test.go` file) that uses the project’s testing framework. It might involve setting up a local chain simulation or using provided test utilities. Verify that the test reliably reproduces the issue (for Cosmos, this could involve simapp or an integration test; for an Ethereum client like geth or gcEVM, it could involve simulating block processing or network messages in a controlled environment).",
   "   - **Other languages/frameworks**: The PoC should align with the project\x27s stack. If the project has a custom test harness or requires a certain environment (e.g., multi-node simulation), the provided PoC should utilize that. You may need to run or mentally execute the provided steps to confirm the outcome.",
   "",
   "   If the report does not include an appropriate PoC or test in the expected format (and it’s not possible to craft one easily), this is a red flag for validity.",
   "",
   "6) **Minimal validation checklist** (all of these must hold true for the finding to be valid):",
   "   1. **Confirm call/event flow** – Walk through the exact sequence of external inputs from an attacker through to the vulnerable code. Set up any necessary preconditions (e.g., contract state, blockchain state, or node configuration). Ensure that all required checks (e.g., `require` statements, signature verifications, consensus conditions) can be satisfied by an attacker in this flow. The path from entry to exploit must be realistic and permitted by the code.",
   "   2. **Track state changes** – Observe all relevant state variables or outputs before and after the exploit steps. This could include balances, totals, consensus state (like validator sets or fork choice), critical flags, counters, etc. Identify exactly where the state deviates from expected behavior: e.g., an invariant is violated, funds go missing or to the wrong account, a consensus property breaks, or memory/cpu usage spikes abnormally.",
   "   3. **Use realistic inputs** – Use input values or conditions that could occur in the actual environment. For example, if testing numeric values, use amounts within allowed ranges (not just extreme impossibilities) and account for any required formatting (like correct data encoding). If the exploit involves multiple blocks or messages, ensure the scenario is something a real attacker could set up (no need for implausible timing or fake external conditions beyond the attacker’s control).",
   "   4. **Demonstrate the effect** – Show that the exploit leads to a tangible problem: theft of funds, permanent denial of service, consensus failure, unintended control, etc. It’s not enough if the only outcome is a transaction revert or an error that doesn’t have lasting impact. The report should prove an advantage gained by the attacker or a harm to the protocol’s security.",
   "   5. **Provide a runnable PoC** – There must be a minimal, reproducible test case or script provided (in the project’s own testing framework) that executes the exploit and illustrates the issue. It should be something that one could run (or conceptually run, if we cannot execute code here) to see the vulnerability in action. If the provided PoC code does not actually trigger the described issue or cannot run, the finding is invalid.",
   "   6. **No privileged assumptions** – The exploit should not require the attacker to have any special privileges or trust beyond what a normal participant has, unless the vulnerability is about privilege escalation. If the scenario assumes a malicious admin or an already compromised majority of nodes, it’s not a valid vulnerability (that would be out-of-scope, as those actors are trusted). The exception is if the vulnerability allows a non-admin to perform an admin-only action.",
   "   7. **Exclude out-of-scope factors** – Ensure the exploit does not rely on conditions explicitly listed as out-of-scope. For example, it should not depend on a 51% attack or other overwhelming external force, nor on deliberately misconfigured parameters by the deployers, nor on hypothetical future code changes. The exploit must hinge only on the code’s current logic and reasonable use of the system by an attacker.",
   "",
   "7) **Check prior art and intent**:",
   "   - Look up any references to this issue in the project’s documentation, issue tracker, or audit materials (if provided, e.g., via DeepWiki or a Gitbook). See if the behavior is perhaps intentional or already known. If it’s an intentional trade-off or the team has accepted it, then unless the exploit is severe and new, it may not be considered a valid report.",
   "   - If the project explicitly documents this \"vulnerability\" as a feature or necessary compromise, it’s likely not to be reported as a bug (unless the report can demonstrate that the impact is worse than acknowledged or can be abused unexpectedly).",
   "",
   "8) **Make a final judgment** – Weigh the evidence. If all the above checks are satisfied and the issue is reproducible and impactful, then it’s a valid vulnerability. Otherwise, it should be rejected.",
   "",
   "9) **Output the result**:",
   "   - If you conclude this is a **valid vulnerability** that meets all criteria, output the Audit Report in the exact format provided below (same structure as the original report request, including sections Title, Summary, Impact, etc., and incorporating any additional details from your validation).",
   "   - If you conclude **no valid vulnerability** is present, output exactly the single line:",
   "     ```",
   "     #NoVulnerability found for this question.",
   "     ```",
   "   (Make sure to include the leading \x27#\x27 and follow the exact casing and wording.)",
   "",
   "\x3d\x3d\x3d\x3d\x3d\x3d\x3d\x3d\x3d\x3d\x3d\x3d\x3d\x3d\x3d\x3d\x3d\x3d\x3d\x3d\x3d\x3d\x3d\x3d\x3d\x3d\x3d\x3d\x3d\x3d\x3d\x3d\x3d\x3d\x3d\x3d\x3d\x3d\x3d\x3d\x3d\x3d\x3d\x3d\x3d\x3d\x3d\x3d\x3d\x3d\x3d\x3d\x3d\x3d\x3d\x3d\x3d\x3d\x3d\x3d\x3d\x3d\x3d\x3d\x3d\x3d\x3d\x3d\x3d\x3d\x3d\x3d\x3d\x3d\x3d\x3d\x3d\x3d\x3d\x3d\x3d\x3d\x3d\x3d\x3d\x3d\x3d\x3d\x3d\x3d\x3d\x3d\x3d\x3d\x3d\x3d\x3d\x3d\x3d\x3d\x3d\x3d\x3d\x3d\x3d\x3d\x3d\x3d\x3d\x3d\x3d\x3d\x3d\x3d\x3d\x3d\x3d\x3d\x3d\x3d\x3d\x3d\x3d\x3d\x3d\x3d\x3d\x3d\x3d\x3d\x3d\x3d\x3d\x3d\x3d\x3d\x3d\x3d\x3d\x3d\x3d\x3d\x3d\x3d",
   "",
   "Now, based on the above steps, perform the validation. If the issue is valid, provide the full structured report as specified. If it is invalid or not truly exploitable, respond with the single line rejecting it (as per the format in step 9).",
   ""]

/-- The f-string text after the placeholder in `validation_format` of src/prompt/golang_cosmos_question.py. -/
def cosmos_v_suf : String := joinLines cosmos_v_suf_lines

/-- Lines of the f-string before the `\x7bquestion\x7d` placeholder in `question_format` of src/prompt/golang_geth_question.py, split at newlines. -/
def geth_q_pre_lines : List String :=
  ["",
   "You are a Web3 Security Researcher. Your task is to analyze the given codebase (an L1 blockchain protocol or client) with a laser focus on this single question:",
   "",
   "**Security Question (scope for this run):** "]

/-- The f-string text before the placeholder in `question_format` of src/prompt/golang_geth_question.py. -/
def geth_q_pre : String := joinLines geth_q_pre_lines

/-- Lines of the f-string after the `\x7bquestion\x7d` placeholder in `question_format` of src/prompt/golang_geth_question.py, split at newlines. -/
def geth_q_suf_lines : List String :=
  ["",
   "",
   "Your mission:",
   "- Use the security question as your starting point. Investigate all code paths, system components, and protocol logic related to that question and look for one concrete, exploitable vulnerability. Do not debate the premise of the question; accept it and investigate thoroughly.",
   "- Explore a wide range of realistic input scenarios and edge cases. Test large and small values (e.g. block sizes, gas limits, payload lengths), unusual transaction data or sequences, and boundary conditions (underflows/overflows, limits) to see how state and memory change. When mathematics or accounting are involved, check for rounding errors, integer underflow/overflow, gas or fee miscalculations, or consensus invariant violations. Always use inputs or messages that could actually be supplied by an untrusted node or user on-chain (via transactions or network messages).",
   "- Work through complete flows end‑to‑end: simulate how an unprivileged user’s transaction or a malicious network peer’s message would propagate and be processed by the system, how the different node roles (sequencer, executor, validator, etc.) handle it, and how state variables or consensus state evolve. Consider interactions across all relevant components (consensus engines, networking, virtual machine execution, storage, cryptographic libraries, etc.) and track how data moves through them. Identify any step where an invariant might break or an unexpected condition could be exploited.",
   "- If you find a vulnerability, produce a report in the exact format below. If **no** valid vulnerability emerges, clearly state: **“#NoVulnerability found for this question.”** (with the hashtag, exactly as shown, and nothing else).",
   "- Do not invent or repeat findings you’ve reported for this question in previous runs. Stay strictly within the scope defined by the security question; avoid discussing unrelated issues or general best practices not tied to this question.",
   "- Try to find **only ONE** concrete, valid vulnerability related to this question. The goal is quality over quantity. Focus your investigation deeply on this potential issue and ignore other tangential problems.",
   "- Go deep into the codebase, business logic, and protocol assumptions connected to this question. Examine how different modules interact and whether trust assumptions hold. Do not just surface-level scan; reason about the system’s behavior under adverse conditions relevant to the question.",
   "",
   "Important rules:",
   "- The vulnerability must be actually triggerable in a real network or on-chain context. Purely theoretical logic issues or invariant violations are only valid if you can explain precisely how they would manifest in practice (e.g. causing a consensus failure, node crash, financial loss, etc.).",
   "- Be 100% certain the issue is exploitable. When in doubt or if you cannot concretely demonstrate an exploit scenario, report **“#NoVulnerability found for this question.”**",
   "- Focus on external attack surfaces (non-privileged actors) first. For example, consider actions by an unauthenticated network node, a normal user transaction, or a public interface call. If the relevant functionality is restricted to privileged roles (e.g. admin, sequencer, validator), do not assume those privileged actors intentionally act maliciously; instead, scrutinize the code for subtle logic errors or unintended behaviors that could be triggered accidentally or through privilege escalation.",
   "- Provide a working proof-of-concept using the project’s test framework to demonstrate the exploit whenever possible. If the test or exploit cannot actually run and reproduce the issue, then the issue should be considered invalid.",
   "- The following types of issues are **out of scope** and should NOT be reported as vulnerabilities:",
   "  * Gas optimizations, micro-optimizations, or stylistic/code clarity improvements.",
   "  * Incorrect log/event outputs or RPC return values that do not affect protocol state or security.",
   "  * Missing input validation or edge-case checks that only prevent user mistakes (assume users and node operators follow expected procedures).",
   "  * Issues that require misconfiguration or intentional misuse by an admin or privileged operator (admins/validators are trusted; focus on vulnerabilities that an attacker without special privileges can exploit).",
   "  * Blacklisting/whitelisting or freezing mechanisms that only a privileged user can invoke (unless those can be manipulated by an attacker without privileges).",
   "  * Non-critical race conditions or timing issues that do not lead to irreversible damage (e.g., a minor temporary desynchronization that self-resolves without lasting impact).",
   "  * Pure user-experience or UI/CLI issues (e.g. misleading console output, minor rounding discrepancies with no security impact).",
   "  * Minor loss of funds or “dust” amount issues that only occur due to user error or expected protocol behavior (and do not pose a systemic risk).",
   "  * Issues dependent on hypothetical future code changes or external services beyond the current codebase’s control (e.g., assumptions about future modules, off-chain oracles misbehaving outside stated assumptions, 51% attacks or other consensus attacks requiring overwhelming external power, network-level attacks outside the node’s control).",
   "  * Attacks requiring control of privileged keys/addresses, leaked private keys, physical access to infrastructure, or other extraordinary conditions that are not realistic for an external attacker.",
   "  * Attacks on third-party dependencies or out-of-scope components (unless a dependency bug directly compromises this in-scope code in a critical way).",
   "  * Best-practice recommendations, feature requests, or any low-impact bugs that do not pose a security risk to the protocol.",
   "- Check all places in the codebase where the relevant logic might reside (including utility libraries, consensus modules, networking code, precompiled contracts, configuration settings, and any component involved in the process).",
   "- Prioritize vulnerabilities that can be exploited by typical usage or by an attacker with no special privileges. If a function or action is only accessible to a privileged role, any issue must be a subtle bug that could cause a security failure beyond just that actor’s misbehavior.",
   "- Do not go out of scope of the question. Avoid discussing anything that isn’t directly related to the specific security question.",
   "- Ensure the vulnerability can actually be triggered under realistic conditions. If an issue only occurs under extremely contrived scenarios or requires numerous unlikely prerequisites, treat it as not a valid finding.",
   "- If you find a vulnerability, you **MUST** produce a report in the exact format specified below.",
   "- If you do **not** find any valid vulnerability, you **MUST** output **only** the line: **“#NoVulnerability found for this question.”** (with no additional commentary or text).",
   "",
   "Audit Report",
   "",
   "## Title",
   "[Clear and specific name of the vulnerability related to the question]",
   "",
   "## Summary",
   "A short, direct summary of the issue and where it occurs in the codebase.",
   "",
   "## Impact",
   "Categorize the severity as Low, Medium, or High.",
   "",
   "## Finding Description",
   "Explain the vulnerability step-by-step:",
   "- **Location:** Identify the specific module, file, and line (or function) where the issue occurs.",
   "- **Intended Logic:** Describe what the code is supposed to do or what security invariant is expected.",
   "- **Actual Logic:** Describe what the code does instead in the vulnerable scenario, and how it deviates from the intention.",
   "- **Exploit Scenario:** Explain how an attacker or an unprivileged participant can trigger this vulnerability (the sequence of actions or conditions leading to it).",
   "- **Security Failure:** State which security property is broken (e.g., consensus agreement, authorization, accounting, denial-of-service, memory safety) and how the system fails as a result.",
   "",
   "## Impact Explanation",
   "Explain the concrete impact of this vulnerability:",
   "- What assets, data, or processes are affected (e.g., funds, transaction finality, network availability)?",
   "- How severe is the damage (e.g., funds stolen or permanently locked, nodes crash or halt, consensus breakdown)?",
   "- Why does this matter for the security or reliability of the system?",
   "",
   "## Likelihood Explanation",
   "How likely is this vulnerability to be triggered or exploited in practice?",
   "- Who can trigger it (any network participant or only someone under specific conditions)?",
   "- What conditions or timing are required (can it happen during normal operation or only under rare circumstances)?",
   "- How frequently could it occur or be exploited if not fixed?",
   "",
   "## Recommendation",
   "Provide a concise fix or mitigation strategy. Suggest specific changes (e.g., adding a check, modifying logic) or design adjustments to prevent the vulnerability, without extensive refactoring if possible.",
   "",
   "## Proof of Concept",
   "Provide a minimal, reproducible proof-of-concept (PoC) demonstrating the issue using the project’s test framework:",
   "- Specify the **file name and test function** where this PoC code should be added (or a new test file name, if appropriate) within the repository’s tests.",
   "- Setup: Describe any necessary initial state or configuration (e.g., initialize blockchain state, configure nodes, create accounts or transactions).",
   "- Trigger: Execute the actions that trigger the vulnerability (e.g., deliver a specially crafted block or transaction, call the function with specific inputs, simulate a network message).",
   "- Observation: Explain what the test observes (e.g., an invariant violation, a panic/crash, incorrect state change) that confirms the bug. The test should fail (or detect the issue) on the vulnerable code.",
   "- This PoC should be ready to run within the project’s test suite to prove the issue.",
   "",
   "If **no** vulnerability is found for this question, output ONLY:",
   "#NoVulnerability found for this question.",
   "(Do not output anything else if there is no vulnerability.)",
   ""]

/-- The f-string text after the placeholder in `question_format` of src/prompt/golang_geth_question.py. -/
def geth_q_suf : String := joinLines geth_q_suf_lines

/-- Lines of the f-string before the `\x7breport\x7d` placeholder in `validation_format` of src/prompt/golang_geth_question.py, split at newlines. -/
def geth_v_pre_lines : List String :=
  ["",
   "You are a Senior Web3 Security Researcher **Judge**. Your task is *validation* of a single security question/claim. The string below is the security **report/claim** to investigate and validate:",
   "",
   "SECURITY QUESTION / CLAIM (scope for this run):",
   ""]

/-- The f-string text before the placeholder in `validation_format` of src/prompt/golang_geth_question.py. -/
def geth_v_pre : String := joinLines geth_v_pre_lines

/-- Lines of the f-string after the `\x7breport\x7d` placeholder in `validation_format` of src/prompt/golang_geth_question.py, split at newlines. -/
def geth_v_suf_lines : List String :=
  ["",
   "",
   "\x3d\x3d\x3d\x3d\x3d\x3d\x3d\x3d\x3d\x3d\x3d\x3d\x3d\x3d\x3d\x3d\x3d\x3d\x3d\x3d\x3d\x3d\x3d\x3d\x3d\x3d\x3d\x3d\x3d\x3d\x3d\x3d\x3d\x3d\x3d\x3d\x3d\x3d\x3d\x3d\x3d\x3d\x3d\x3d\x3d\x3d\x3d\x3d\x3d\x3d\x3d\x3d\x3d\x3d\x3d\x3d\x3d\x3d\x3d\x3d\x3d\x3d\x3d\x3d\x3d\x3d\x3d\x3d\x3d\x3d\x3d\x3d\x3d\x3d\x3d\x3d\x3d\x3d\x3d\x3d\x3d\x3d\x3d\x3d\x3d\x3d\x3d\x3d\x3d\x3d\x3d\x3d\x3d\x3d\x3d\x3d\x3d\x3d\x3d\x3d\x3d\x3d\x3d\x3d\x3d\x3d\x3d\x3d\x3d\x3d\x3d\x3d\x3d\x3d\x3d\x3d\x3d\x3d\x3d\x3d\x3d\x3d\x3d\x3d\x3d\x3d\x3d\x3d\x3d\x3d\x3d\x3d\x3d\x3d\x3d\x3d\x3d\x3d\x3d\x3d\x3d\x3d\x3d\x3d",
   "Your mission:",
   "",
   "1) **Treat the claim as the starting point** — Do not discuss the report’s style or who wrote it. Focus solely on the technical claim. Investigate whether the underlying technical claim is a valid, exploitable vulnerability in the codebase. Use the code, tests, and any documentation to confirm or refute the claim.",
   "",
   "2) **Search & Cross-Check**:",
   "   - Inspect all relevant code paths, functions, and modules related to the claim. Trace the execution flow from any external entry point (transaction, RPC call, network packet, etc.) to the point of the alleged vulnerability. Confirm that each step (including any require/assert or permission checks) can indeed be reached as claimed.",
   "   - Search through the project’s documentation, prior audits, or a knowledge base (e.g., DeepWiki) for information on this part of the system. Look for any prior reports or noted issues similar to this claim. Summarize any relevant references or fixes that relate to the claim.",
   "   - Check if this behavior is documented as intentional or already fixed in a later version. If it’s a known accepted risk or a duplicate of a previously reported issue (without new exploitability), that should influence your validation.",
   "",
   "3) **Platform Acceptance Rules** (must all be considered). If **any** of the following conditions apply, the claim is **invalid** and should be rejected (output `#NoVulnerability found for this question.`):",
   "   - The issue requires an admin/privileged misconfiguration or uses privileged keys (assume privileged roles are trusted) — *unless* even a trusted role inadvertently triggering it would cause an unrecoverable security failure beyond their intended authority.",
   "   - The issue is purely about gas optimization, minor efficiency, or code style with no security impact.",
   "   - There is no feasible on-chain or network input that can trigger the issue (i.e., it cannot occur through any realistic use of the system).",
   "   - **No realistic attacker scenario**: Exploitation hinges on conditions like stolen private keys, a 51% attack or majority collusion, Sybil attacks beyond normal assumptions, or off-chain manipulations outside the protocol’s control (these are out of scope).",
   "   - The code already prevents or handles the scenario (the claim misreads the code or overlooks existing checks, making the impact impossible).",
   "   - The issue depends only on non-standard or adversarial token/contract behavior that the protocol doesn’t support by design (unless explicitly stated as in-scope).",
   "   - The exact issue is a known duplicate or “won’t fix” that has been documented (without any new dimension added by this report).",
   "   - It only affects tests, documentation, or non-production code, or it’s a development feature not deployed in production.",
   "   - The outcome is not a security risk (e.g., it only causes a revert or an error for the actor initiating it, with no broader impact on the system or other users).",
   "",
   "   **Platform-specific context:**",
   "   - **Code4rena:** Demands a clear transaction flow, state tracking, and a working PoC (e.g., Forge/Hardhat test) to prove the issue. No credit for scenarios that require malicious privileged actors. Even Low severity findings need a tangible impact (like fund loss or denial of service).",
   "   - **Sherlock:** Focuses on high-impact, on-chain exploits. A PoC should be provided. Informational or very low-impact issues are generally not accepted.",
   "   - **Immunefi:** Similar standards — the vulnerability should be demonstrable and significant. Issues that rely on unlikely scenarios or only theoretical concerns are not considered valid.",
   "",
   "4) **Language & Test Expectations** (depending on tech stack):",
   "   - **Solidity / EVM:** Expect a Foundry or Hardhat test in the report, showing the exploit with actual contract calls and state assertions.",
   "   - **Move:** Expect a Move language test or script executing the offending call and checking results.",
   "   - **Rust (Soroban/Substrate):** Expect a Rust unit test or integration test exposing the issue (using the project’s test framework).",
   "   - **Go (Ethereum client/Geth):** Expect a Go test (in a `*_test.go` file within the relevant package) that simulates the scenario (e.g., sending a crafted block/transaction or calling into consensus code) and asserts the improper behavior.",
   "   - **Go (Cosmos SDK):** Expect a Go test using simapp or module test functions that sets up the chain state and triggers the vulnerability.",
   "   - If a proper proof-of-concept isn’t included or cannot be constructed, the report likely fails to meet the bar. A reproducible local test is generally required. ",
   "   - *Note:* The provided PoC might contain errors if auto-generated; focus on whether the described scenario truly reveals a bug in the code.",
   "",
   "5) **Minimal Validation Checklist** (the claim must satisfy ALL to be a valid finding):",
   "   1. **Confirm Flow** – Identify the entry point and path to the vulnerable code. Ensure any required conditions or roles can be satisfied by an attacker or in normal operation.",
   "   2. **State Change Analysis** – Observe the key state variables or outputs before and after the exploit. Pinpoint where the system’s expected behavior diverges (e.g., an invariant breaks, memory corruption occurs, funds are mis-accounted, a panic is triggered).",
   "   3. **Realistic Inputs** – Verify that the inputs used in the exploit are plausible and within allowed ranges. The scenario should use legitimate transactions or messages that the system would accept (no out-of-bound values unless those bounds aren’t checked).",
   "   4. **Impact Verification** – Confirm that the exploit has a concrete adverse effect: e.g., funds are lost/stolen, the network or consensus halts, a node crashes, or privileges are escalated. If the outcome is merely a reverted transaction or an error with no lasting effect, it’s not a reportable vulnerability.",
   "   5. **Reproducible PoC** – There should be a PoC test or script that can run against the codebase to trigger the issue. This can be the provided one or your own minimal re-creation. If you cannot actually reproduce the issue (and it’s not obvious from reasoning alone), the claim is unproven.",
   "   6. **No Special Privileges Needed** – The exploit should not require the attacker to already have an admin role or control majority of the system (unless the issue is about escalation from a lower privilege to higher). A bug that only a trusted insider can trigger by acting against protocol assumptions is not an external vulnerability.",
   "   7. **No Out-of-Scope Dependencies** – The exploit should not depend on events or conditions outside the intended scope (like an entirely different protocol failing, or an upstream library bug unless it directly impacts this system). It should be a self-contained issue in the context of the target system.",
   "",
   "6) **Outcome & Response**:",
   "   - If you confirm the claim is a **valid vulnerability** (all checks passed), output the following **Audit Report** format, ensuring clarity and completeness:",
   "     ```",
   "     Audit Report",
   "",
   "     ## Title",
   "     [Clear and specific name of the vulnerability related to the question]",
   "",
   "     ## Summary",
   "     Short, direct summary of the issue and where it occurs.",
   "",
   "     ## Impact",
   "     Low / Medium / High",
   "",
   "     ## Finding Description",
   "     - location: <file and line number or module name where the issue occurs>",
   "     - intended logic: <explanation of the intended correct behavior>",
   "     - actual logic: <explanation of the flawed behavior happening instead>",
   "     - exploitation path: <how an attacker triggers the issue, step by step from entry to impact>",
   "     - security guarantee broken: <which security property or invariant is violated>",
   "",
   "     ## Impact Explanation",
   "     Describe the impact in terms of consequences (fund loss, network halt, etc.).",
   "",
   "     ## Likelihood Explanation",
   "     Discuss how likely this is to be encountered or exploited (who can do it, how often, under what conditions).",
   "",
   "     ## Recommendation",
   "     Suggest a fix or mitigation (e.g., code change or additional check).",
   "",
   "     ## Proof of Concept",
   "     Provide a test or script (with file name and function) that reproduces the issue:",
   "     - setup (initial state or prep steps)",
   "     - action (the call/transaction or sequence that triggers the bug)",
   "     - result (the observed incorrect outcome or error indicating the bug)",
   "     ```",
   "   - If you determine **no valid vulnerability** exists (the claim fails any of the above criteria), you **must** respond with exactly:",
   "     ```",
   "     #NoVulnerability found for this question.",
   "     ```",
   "",
   "7) **Prior Art & Intentional Behavior**:",
   "   - Double-check if the project team has noted this behavior as intentional (e.g., in docs or comments) or if it has been fixed in a commit beyond the contest scope. An intentional design choice that looks risky but is known and accepted is not a vulnerability unless the report shows it can be abused.",
   "   - If a patch is known for this issue but not in the contest scope, mention that it’s a known issue if relevant. If it’s patched, the report might be considered informational unless the contest explicitly includes it.",
   "   - Consider if this is essentially the same as another reported issue. If so, and no new insight is provided, it should be marked as a duplicate (hence invalid for a new report).",
   "",
   "8) **Be Strict & Objective**:",
   "   - If the only consequence of the supposed bug is a benign revert or an inconvenience without security impact, it’s not a valid finding. Do not award credit for hypothetical or negligible issues. In such cases, respond with `#NoVulnerability found for this question.`",
   "",
   "\x3d\x3d\x3d\x3d\x3d\x3d\x3d\x3d\x3d\x3d\x3d\x3d\x3d\x3d\x3d\x3d\x3d\x3d\x3d\x3d\x3d\x3d\x3d\x3d\x3d\x3d\x3d\x3d\x3d\x3d\x3d\x3d\x3d\x3d\x3d\x3d\x3d\x3d\x3d\x3d\x3d\x3d\x3d\x3d\x3d\x3d\x3d\x3d\x3d\x3d\x3d\x3d\x3d\x3d\x3d\x3d\x3d\x3d\x3d\x3d\x3d\x3d\x3d\x3d\x3d\x3d\x3d\x3d\x3d\x3d\x3d\x3d\x3d\x3d\x3d\x3d\x3d\x3d\x3d\x3d\x3d\x3d\x3d\x3d\x3d\x3d\x3d\x3d\x3d\x3d\x3d\x3d\x3d\x3d\x3d\x3d\x3d\x3d\x3d\x3d\x3d\x3d\x3d\x3d\x3d\x3d\x3d\x3d\x3d\x3d\x3d\x3d\x3d\x3d\x3d\x3d\x3d\x3d\x3d\x3d\x3d\x3d\x3d\x3d\x3d\x3d\x3d\x3d\x3d\x3d\x3d\x3d\x3d\x3d\x3d\x3d\x3d\x3d\x3d\x3d\x3d\x3d\x3d\x3d",
   "Now perform the validation and respond with either the **Audit Report** (if the claim is valid) or **#NoVulnerability found for this question.** (if invalid), strictly following the above instructions.",
   ""]

/-- The f-string text after the placeholder in `validation_format` of src/prompt/golang_geth_question.py. -/
def geth_v_suf : String := joinLines geth_v_suf_lines

/-- Lines of the f-string before the `\x7bquestion\x7d` placeholder in `question_format` of src/prompt/solidity_question.py, split at newlines. -/
def sol_q_pre_lines : List String :=
  ["",
   "You are a Web3 Security Researcher. Your task is to analyze the given codebase with a laser focus on this single question:",
   "",
   "**Security Question (scope for this run):** "]

/-- The f-string text before the placeholder in `question_format` of src/prompt/solidity_question.py. -/
def sol_q_pre : String := joinLines sol_q_pre_lines

/-- Lines of the f-string after the `\x7bquestion\x7d` placeholder in `question_format` of src/prompt/solidity_question.py, split at newlines. -/
def sol_q_suf_lines : List String :=
  ["",
   "",
   "Your mission:",
   "- Use the security question as your starting point. Investigate all code paths, business logic, and protocol assumptions tied to that question and look for one concrete, exploitable vulnerability. Do not debate the premise of the question; accept it and investigate.",
   "- Explore a wide range of realistic input values and edge cases. Test large and small amounts, atypical decimals, sequence of actions, and boundary conditions to see how state variables change. When mathematics or accounting are involved, check for rounding errors, underflow/overflow, interest miscalculations, or invariant violations. Always use values that could actually be supplied by a user or contract on-chain.",
   "- Work through complete flows end‑to‑end: simulate how an unprivileged user would call the functions, how storage changes, and how balances or state variables evolve. Consider interactions across helpers, libraries, factories, deployers, pool contracts, configuration modules, and accounting components.",
   "- If you find a vulnerability, produce a report in the exact format below. If **no** valid vulnerability emerges, clearly state: **“No vulnerability found for this question.”**",
   "- Do not invent or repeat findings you’ve reported for this question. Stay strictly within the scope defined by the question; don’t add unrelated issues.",
   "- The security question is your starting point. Your job is to investigate the code related to it and find a concrete, exploitable vulnerability. Do not debate or question the premise of the question be deeply logical. ",
   "- Try to find **only ONE** valid vulnerability related to this question and think the vulnerability tied to this question .",
   "- Go deep into the codebase, business logic, and protocol assumptions.",
   "- If you find a vulnerability, you MUST produce a report in the exact format below.",
   "- If you do **not** find any valid vulnerability, you MUST clearly say: **\"No vulnerability found for this question.\"**",
   "- Do **not** invent or repeat vulnerabilities you’ve already reported for this same question.",
   "- Only stay within the scope of the question. Don’t add extra findings.",
   "",
   "Important rules:",
   "- The vulnerability must be actually triggerable on-chain or off-chain. Pure logic/invariant violations are only valid if you can explain precisely how the invariant is broken.",
   "- Be 100% certain the issue is exploitable. When in doubt, report **“#Noulnerability found.”**",
   "- Focus on user‑level attack surfaces (non‑privileged actors) first. If the function is privileged, scrutinise subtle logic errors rather than assuming malicious admins.",
   "- Provide a working test using the project’s test framework to demonstrate the exploit where possible. If the test or exploit cannot run, the issue is not valid.",
   "- Findings that only improve gas usage, fix event values, add zero‑address checks, or address user/admin mistakes without harming the protocol are **out of scope**:. Also excluded are:",
   "  • Gas optimisations, stylistic improvements or UX enhancements",
   "  • Missing event parameters or incorrect view return values that don’t affect state ",
   "  • Issues requiring users or admins to input wrong values or call functions in the wrong order",
   "  • Centralisation risks or reckless admin actions (assume admins are trusted)",
   "  • Theoretical attacks relying on leaked keys, privileged addresses, 51% attacks, Sybil attacks, stablecoin depegging, sequencer downtime, future code changes, or third‑party oracles misbehaving",
   "  • Losses of dust amounts, accidental token transfers by users, or missing rewards/airdrops",
   "  • Unsupported or weird token behaviours (unless explicitly in scope)",
   "  • Duplicate or previously acknowledged issues",
   "- Check all places in the codebase where this logic could exist (helpers, libraries, factories, deployers, pool contracts, config, accounting).",
   "- Focus on user-level attack surface first (non-privileged actors). If the function is privileged, look for subtle logic mistakes.",
   "- Do not go out of scope.",
   "- Make Sure u provide a valid test function if its actually a vulnerability using their test setup ",
   "- Make sure the vulnerability can be triggered if not then its not valid ",
   "- If its more of like informational with no good impact then its not a vulnerability ",
   "",
   "If the issue you identify falls into any of the out‑of‑scope categories above, do not include it in your report. Otherwise, thoroughly test with dynamic values, check all relevant code paths, and produce a precise, reproducible proof‑of‑concept.",
   "",
   "Out-of-scope vulnerability types (must NOT be reported):",
   "- Gas optimizations, micro-optimizations, or stylistic improvements:contentReference.",
   "- Incorrect event values or view function outputs that do not affect protocol state:contentReference",
   "- Missing zero-address checks or user-input validation that only prevents user mistakes; assume users preview their transactions.",
   "- Admin misconfiguration or reckless admin calls; the admin is trusted so  dont give me vulnerabilty tied to that this is very important ",
   "- Blacklisting/whitelisting or freezing of contract/admin addresses unless it enables a non‑privileged attacker",
   "- Front‑running initializers or race conditions that cause no irreparable damage and can be fixed by redeployment:contentReference",
   "- Pure user‑experience issues (temporary inconveniences, UI bugs, minor rounding dust) except its has valid impact ",
   "- Loss of rewards/airdrops or accidental direct token transfers that only hurt the sender",
   "- Storage‑gap omissions in simple inheritance structures",
   "- Stale‑price/round completeness checks unless explicitly required by the protocol",
   "- Any issue that cannot be realistically triggered, relies on hypothetical future code, third‑party oracle misbehaviour, network reorgs or sequencer downtime",
   "- Attacks requiring privileged keys/addresses, leaked credentials, physical device access, 51% or Sybil attacks, or stablecoin depegging",
   "- Testing or attacks on out‑of‑scope contracts, test files, configuration files or third‑party systems",
   "- Best‑practice recommendations, feature requests, UX/UI improvements, missing headers, clickjacking on non‑sensitive pages, rate‑limit suggestions, or any other low/no‑impact web/mobile bug",
   "- Vulnerabilities that depend solely on weird/non‑standard tokens unless explicitly declared in scope",
   "- Approve race conditions and similar deprecated ERC‑20 patterns",
   "- Known issues marked “won’t fix” or acknowledged in previous contests",
   "",
   "Minimal validation checklist (MUST PASS for a valid finding):",
   "1. **Confirm call flow** – Set up the necessary preconditions (e.g., deploy pool, add liquidity, create orders) and then walk through the full exploit sequence from the external entry point. Verify that each call and modifier is actually satisfied; do not assume bypasses that are blocked by `require` statements or modifiers in normal flow.",
   "2. **Track state changes** – Capture the values of all relevant variables (balances, totalFunds, votes, counters) before and after each step. Show exactly where an invariant is broken, funds are misallocated, or a state variable drifts from its intended value.",
   "3. **Use realistic values** – Choose input values that are within the range a normal user could supply on-chain: non-zero amounts, proper decimals, and values that satisfy bounds checks. Make sure any arithmetic (multiplications, divisions, modulo) with these values does not overflow or underflow, and that rounding errors cause a real financial impact rather than negligible dust.",
   "4. **Demonstrate the effect** – Prove that the exploit yields a concrete advantage  rather than merely causing a revert or requiring a careless user. Findings that depend on user/admin mistakes are considered.",
   "5. **Provide a runnable test** – Write a minimal, reproducible test case using the project’s test framework and codebase that executes the exploit sequence and asserts the incorrect outcome. Code4rena explicitly requires coded, runnable PoCs for Medium/High findings If the test does not run or the exploit cannot be reproduced, the issue is invalid.",
   "6. **Exclude out‑of‑scope scenarios** – Do not rely on hypothetical future code changes, misbehaving oracles, leaked keys, privileged actors, Sybil/51% attacks, or other conditions listed in the out‑of‑scope section. If an exploit depends on any of these, it should not be reported.",
   "7. **make sure you check the code with flow, dont report a vulnerabilty when u haven\x27t checked how its been called from the entrypoint to the end ",
   "",
   "",
   "Only when all of the above checks pass should a vulnerability be reported as valid. Otherwise, return “#NoVulnerability found for this question.”",
   "",
   "Note make the report short and understandable and not too long ",
   "",
   "Audit Report",
   "",
   "## Title",
   "[Clear and specific name of the vulnerability related to the question]",
   "",
   "## Summary",
   "Short, direct summary of the issue and where it occurs.",
   "",
   "## Impact",
   "Low or Medium or HIgh ",
   "",
   "## Finding Description",
   "Explain the vulnerability step-by-step:",
   "- where in the code / which component,",
   "- what the intended logic is,",
   "- what the actual logic is,",
   "- how an attacker / user can reach it,",
   "- which security guarantee is broken (authz, accounting, invariant, DoS, etc.).",
   "Keep it tight but undeniable.",
   "",
   "## Impact Explanation",
   "Explain the concrete impact (fund loss, permanent lock, wrong accounting, privilege escalation, market skew, protocol invariant break).",
   "",
   "## Likelihood Explanation",
   "How likely is this to be hit in real usage? (e.g. callable by anyone, common flow, requires specific state, etc.)",
   "",
   "## Recommendation",
   "Give a concise fix direction and, if possible, a short code-level suggestion (no big refactors).",
   "",
   "## Proof of Concept",
   "Show a minimal scenario/test/call sequence that demonstrates the issue.",
   "- setup",
   "- action",
   "- observed broken state / wrong value / bypass",
   "- Make sure to provide the actual test function using the  codebase with their test setup that must actually  work to prove this vulnerability ",
   "",
   "If **no** vulnerability is found that matches this exact question, output ONLY:",
   "#NoVulnerability found for this question. Note Put the hashtag ",
   "",
   "Do not output anything else if there is no vulnerability.",
   ""]

/-- The f-string text after the placeholder in `question_format` of src/prompt/solidity_question.py. -/
def sol_q_suf : String := joinLines sol_q_suf_lines

/-- Lines of the f-string before the `\x7breport\x7d` placeholder in `validation_format` of src/prompt/solidity_question.py, split at newlines. -/
def sol_v_pre_lines : List String :=
  ["",
   "You are a Senior Web3 Security Researcher  Judge. Your task is *validation* of a single security question/claim (not the writing style of the report). The string below is the security *report/claim* to investigate and validate:",
   "",
   "SECURITY QUESTION / CLAIM (scope for this run):",
   ""]

/-- The f-string text before the placeholder in `validation_format` of src/prompt/solidity_question.py. -/
def sol_v_pre : String := joinLines sol_v_pre_lines

/-- Lines of the f-string after the `\x7breport\x7d` placeholder in `validation_format` of src/prompt/solidity_question.py, split at newlines. -/
def sol_v_suf_lines : List String :=
  ["",
   "",
   "\x3d\x3d\x3d\x3d\x3d\x3d\x3d\x3d\x3d\x3d\x3d\x3d\x3d\x3d\x3d\x3d\x3d\x3d\x3d\x3d\x3d\x3d\x3d\x3d\x3d\x3d\x3d\x3d\x3d\x3d\x3d\x3d\x3d\x3d\x3d\x3d\x3d\x3d\x3d\x3d\x3d\x3d\x3d\x3d\x3d\x3d\x3d\x3d\x3d\x3d\x3d\x3d\x3d\x3d\x3d\x3d\x3d\x3d\x3d\x3d\x3d\x3d\x3d\x3d\x3d\x3d\x3d\x3d\x3d\x3d\x3d\x3d\x3d\x3d\x3d\x3d\x3d\x3d\x3d\x3d\x3d\x3d\x3d\x3d\x3d\x3d\x3d\x3d\x3d\x3d\x3d\x3d\x3d\x3d\x3d\x3d\x3d\x3d\x3d\x3d\x3d\x3d\x3d\x3d\x3d\x3d\x3d\x3d\x3d\x3d\x3d\x3d\x3d\x3d\x3d\x3d\x3d\x3d\x3d\x3d\x3d\x3d\x3d\x3d\x3d\x3d\x3d\x3d\x3d\x3d\x3d\x3d\x3d\x3d\x3d\x3d\x3d\x3d\x3d\x3d\x3d\x3d\x3d\x3d",
   "Your mission (precise):",
   "",
   "1) **Treat the claim as the starting point** — do not argue about report grammar or who wrote it. Instead, *investigate whether the underlying technical claim is a valid, exploitable vulnerability in the codebase.* Use code, tests, DeepWiki pages, and real flows to confirm or refute the claim.",
   "",
   "2) **Search & cross-check**:",
   "   - Inspect all code paths relevant to the claim: entrypoints, helpers, storage, config, libraries, protocol/version switches.",
   "   - Search DeepWiki (or other provided knowledge sources) for prior reports, mitigations, or acknowledged issues related to the same logic. Summarize relevant pages and links briefly to support your verdict.",
   "   - Check for previous public disclosures, acknowledged issues, or official “won’t-fix” notes that would invalidate the finding.",
   "",
   "3) **Platform acceptance rules** (must be enforced). When deciding if the claim is a real, reportable vulnerability, use these judge filters (if ANY apply, the finding is invalid ):",
   "",
   "   Automatic *invalid / rejected* conditions (if any apply -> **reject** and return `#NoVulnerability found for this question.`):",
   "   - The issue is a pure admin misconfiguration or requires privileged keys (admins are trusted) except it would have an impact that is irreversible ",
   "   - The issue is only a gas optimization, style, or UX issue.",
   "   - The issue cannot be triggered on-chain (no sequence of on-chain calls can reproduce it).",
   "   - No realistic attacker/sequence: requires leaked private keys, 51%/consensus attacks, Sybil or censoring attackers, off-chain oracle manipulations beyond the contract assumptions, chain reorganizations, or other external improbable events.",
   "   - The reported impact is contradictory to code behavior (e.g., you find the code already protects the path).",
   "   - The issue depends solely on weird/unsupported token implementations unless the project explicitly includes them in scope.",
   "   - The issue is a duplicate of already-acknowledged/wont-fix issues listed in DeepWiki or the repo’s issue tracker (unless the report adds new exploitability).",
   "   - The issue only affects off-chain tooling, docs, or test-only code.",
   "   - The vulnerability cannot produce a concrete security impact (fund loss, irrevocable lock, invariant break, prolonged DoS) — e.g., it only causes a revert for a single user but not a systemic problem.",
   "",
   "   Platform-specific acceptance heuristics (apply all):",
   "   - : Requires a precise call flow, state changes, and a runnable PoC (forge/test or similar) that demonstrates the exploit within the repo’s tests. No admin-only assumptions. Concrete financial or availability impact required for Low/Medium/High.",
   "   - : Prefers on-chain exploitability with measurable financial impact or critical availability/security impact. Runnable PoC desirable. Low-impact or purely informational reports are usually not eligible for bounties.",
   "   - : Similar rules — reproducible PoC, clear impact, no admin-only errors, no theoretical/remote dependencies.",
   "",
   "4) **Language & test harness expectations (be language-aware)**:",
   "   - **Solidity / EVM**: Provide Foundry/Hardhat test or snippet that runs inside the repository tests (e.g., `forge test` or `hardhat test`). Use contract addresses in the repo and realistic on-chain values.",
   "   - **Move**: Provide a Move unit test or CLI script using the repo’s test harness / Move prover that reproduces the behavior.",
   "   - **Rust (Sorboban / Substrate)**: Provide a Soroban test (#[test]) or substrate unit test matching the codebase’s test harness and compiling with the repo.",
   "   - **Go (Cosmos SDK)**: Provide a Go unit/integration test scenario from the repo’s testing framework that reproduces the issue (e.g., with simapp or chain-integration tests).",
   "   - If a runnable PoC is not technically possible in the repo context (e.g., needs a live chain or complex infra), the issue is invalid unless a *deterministic local test* can be provided that demonstrates the logic failure.",
   "   - Note my test may be wrong because its automated so ur goal is to check the report and the protocol itself to see if its valid or not ",
   "",
   "5) **Minimal validation checklist (ALL must pass for a valid finding)**:",
   "   1. **Confirm call flow** — show the exact sequence of calls from an external entrypoint to the vulnerable internal function. Demonstrate ability to satisfy any `require`/`auth` checks.",
   "   2. **Track state changes** — show before/after snapshots of all relevant storage variables and account balances proving the invariant break or DoS.",
   "   3. **Realistic values** — use values a real user could provide on-chain and show they fit existing bounds. Avoid hypothetical huge numbers unless those are within the type limits and reachable via normal admin/setters described in repo.",
   "   4. **Demonstrate effect** — show concrete impact (fund loss, frozen funds, persistent DoS, wrong accounting, privilege escalation). A revert-only bug with no systemic impact is typically invalid.",
   "   5. **Provide runnable test** — include a minimal test that runs in the repo’s test framework and reproduces the issue. Tests must compile/run. (If you cannot produce a test because of external dependencies, the report is invalid.)",
   "   6. **No privileged assumptions** — attacker must be a non-privileged caller unless the claim is about a subtle admin logic bug (in which case still show how it breaks security beyond normal admin actions).",
   "   7. **Exclude out-of-scope scenarios** — ensure it does not rely on consensus/infra/third-party conditions listed earlier.",
   "",
   "6) **What to produce**:",
   "   - If you **find a valid vulnerability** (ALL checks above pass), produce the report **in this exact format** (do not add other commentary):",
   "     ```",
   "     Audit Report",
   "",
   "     ## Title",
   "     [Clear and specific name of the vulnerability related to the question]",
   "",
   "     ## Summary",
   "     Short, direct summary of the issue and where it occurs.",
   "",
   "     ## Impact",
   "     Low or Medium or High",
   "",
   "     ## Finding Description",
   "     - location: <file:line or module>",
   "     - intended logic:",
   "     - actual logic:",
   "     - exploitation path (step-by-step, caller, preconditions)",
   "     - security guarantee broken",
   "",
   "     ## Impact Explanation",
   "     Concrete effects (fund loss, DoS, locked state, wrong accounting, etc.)",
   "",
   "     ## Likelihood Explanation",
   "     How likely — caller privilege, state preconditions, frequency.",
   "",
   "     ## Recommendation",
   "     Short code-level fix or mitigation.",
   "",
   "     ## Proof of Concept",
   "     Provide a runnable test/PoC using the repository\x27s test harness:",
   "     - exact file & function to add",
   "     - simple setup",
   "     - actions to execute",
   "     - assert expected failure/impact",
   "     ```",
   "",
   "   - If you **do not** find a valid vulnerability, you MUST output exactly this single line (no additional text):",
   "     ```",
   "     #NoVulnerability found for this question.",
   "     Pls very important because this is what i would use to know automated if its invalid ",
   "     ```",
   "",
   "7) **DeepWiki / Prior art check**:",
   "   - Search DeepWiki entries (or provided knowledge base) for identical / related issues and whether the project already acknowledged or patched this behavior; if acknowledged and fixed, treat as non-reportable unless the PoC demonstrates residual exploitation after the claimed fix.",
   "   - If DeepWiki shows the issue is intentionally accepted design (with rationale), treat as non-reportable unless you can show a real exploit that design does not mitigate.",
   "",
   "",
   "8) **Be strict & conservative**:",
   "   - If the only effect is a reverted call for a single non-critical action with no larger impact, return `#NoVulnerability found for this question.`",
   "",
   "\x3d\x3d\x3d\x3d\x3d\x3d\x3d\x3d\x3d\x3d\x3d\x3d\x3d\x3d\x3d\x3d\x3d\x3d\x3d\x3d\x3d\x3d\x3d\x3d\x3d\x3d\x3d\x3d\x3d\x3d\x3d\x3d\x3d\x3d\x3d\x3d\x3d\x3d\x3d\x3d\x3d\x3d\x3d\x3d\x3d\x3d\x3d\x3d\x3d\x3d\x3d\x3d\x3d\x3d\x3d\x3d\x3d\x3d\x3d\x3d\x3d\x3d\x3d\x3d\x3d\x3d\x3d\x3d\x3d\x3d\x3d\x3d\x3d\x3d\x3d\x3d\x3d\x3d\x3d\x3d\x3d\x3d\x3d\x3d\x3d\x3d\x3d\x3d\x3d\x3d\x3d\x3d\x3d\x3d\x3d\x3d\x3d\x3d\x3d\x3d\x3d\x3d\x3d\x3d\x3d\x3d\x3d\x3d\x3d\x3d\x3d\x3d\x3d\x3d\x3d\x3d\x3d\x3d\x3d\x3d\x3d\x3d\x3d\x3d\x3d\x3d\x3d\x3d\x3d\x3d\x3d\x3d\x3d\x3d\x3d\x3d\x3d\x3d\x3d\x3d\x3d\x3d\x3d\x3d",
   "Now perform the validation and respond exactly as required in section (6) above.",
   ""]

/-- The f-string text after the placeholder in `validation_format` of src/prompt/solidity_question.py. -/
def sol_v_suf : String := joinLines sol_v_suf_lines

namespace golang_cosmos_question

/-- `question_format` of src/prompt/golang_cosmos_question.py: the f-string with `question` interpolated at its single placeholder. -/
def question_format (question : String) : String := cosmos_q_pre ++ question ++ cosmos_q_suf

/-- `validation_format` of src/prompt/golang_cosmos_question.py: the f-string with `report` interpolated at its single placeholder. -/
def validation_format (report : String) : String := cosmos_v_pre ++ report ++ cosmos_v_suf

end golang_cosmos_question

namespace golang_geth_question

/-- `question_format` of src/prompt/golang_geth_question.py: the f-string with `question` interpolated at its single placeholder. -/
def question_format (question : String) : String := geth_q_pre ++ question ++ geth_q_suf

/-- `validation_format` of src/prompt/golang_geth_question.py: the f-string with `report` interpolated at its single placeholder. -/
def validation_format (report : String) : String := geth_v_pre ++ report ++ geth_v_suf

end golang_geth_question

namespace solidity_question

/-- `question_format` of src/prompt/solidity_question.py: the f-string with `question` interpolated at its single placeholder. -/
def question_format (question : String) : String := sol_q_pre ++ question ++ sol_q_suf

/-- `validation_format` of src/prompt/solidity_question.py: the f-string with `report` interpolated at its single placeholder. -/
def validation_format (report : String) : String := sol_v_pre ++ report ++ sol_v_suf

end solidity_question
/-- The ecosystem tag of the specification's data model. -/
inductive Ecosystem where
  | CosmosGo : Ecosystem
  | GethGo : Ecosystem
  | Solidity : Ecosystem
deriving DecidableEq

/-- The phase tag of the specification's data model. -/
inductive Phase where
  | Question : Phase
  | Validation : Phase
deriving DecidableEq

/-- The exact no-finding sentinel string (the wire-exact constant of the spec). -/
def sentinel : String := "#NoVulnerability found for this question."

/-- The eight reserved section headings of the shared output grammar, in the
declared grammar order. -/
def headings : List String :=
  ["## Title", "## Summary", "## Impact", "## Finding Description",
   "## Impact Explanation", "## Likelihood Explanation", "## Recommendation",
   "## Proof of Concept"]

/-- The f-string text before the placeholder for each (ecosystem, phase). -/
def templatePre : Ecosystem → Phase → String
  | Ecosystem.CosmosGo, Phase.Question => cosmos_q_pre
  | Ecosystem.CosmosGo, Phase.Validation => cosmos_v_pre
  | Ecosystem.GethGo, Phase.Question => geth_q_pre
  | Ecosystem.GethGo, Phase.Validation => geth_v_pre
  | Ecosystem.Solidity, Phase.Question => sol_q_pre
  | Ecosystem.Solidity, Phase.Validation => sol_v_pre

/-- The f-string text after the placeholder for each (ecosystem, phase). -/
def templateSuf : Ecosystem → Phase → String
  | Ecosystem.CosmosGo, Phase.Question => cosmos_q_suf
  | Ecosystem.CosmosGo, Phase.Validation => cosmos_v_suf
  | Ecosystem.GethGo, Phase.Question => geth_q_suf
  | Ecosystem.GethGo, Phase.Validation => geth_v_suf
  | Ecosystem.Solidity, Phase.Question => sol_q_suf
  | Ecosystem.Solidity, Phase.Validation => sol_v_suf

/-- The renderer: dispatches an (ecosystem, phase) pair to the matching
template function of the source and interpolates the free text. -/
def render : Ecosystem → Phase → String → String
  | Ecosystem.CosmosGo, Phase.Question, t => golang_cosmos_question.question_format t
  | Ecosystem.CosmosGo, Phase.Validation, t => golang_cosmos_question.validation_format t
  | Ecosystem.GethGo, Phase.Question, t => golang_geth_question.question_format t
  | Ecosystem.GethGo, Phase.Validation, t => golang_geth_question.validation_format t
  | Ecosystem.Solidity, Phase.Question, t => solidity_question.question_format t
  | Ecosystem.Solidity, Phase.Validation, t => solidity_question.validation_format t

/-- Modelled from the spec: the classification outcome sum type of §3 —
`NoVulnerability`, `StructuredReport` (ordered section-name/body pairs) or
`Malformed` carrying the raw reply.  The classifier itself is not among the
repository's source files. -/
inductive ClassificationOutcome where
  | NoVulnerability : ClassificationOutcome
  | StructuredReport : List (String × String) → ClassificationOutcome
  | Malformed : String → ClassificationOutcome
deriving DecidableEq

/-- Whitespace characters stripped from a reply's ends (Python `str.strip`). -/
def isWsChar (c : Char) : Bool :=
  c == ' ' || c == '\t' || c == '\n' || c == '\r' || c == '\x0b' || c == '\x0c'

/-- Drop leading whitespace characters. -/
def dropWs : List Char → List Char
  | [] => []
  | c :: cs => if isWsChar c then dropWs cs else c :: cs

/-- Modelled from the spec: trim surrounding whitespace of a reply (step 1 of
the classifier's algorithm). -/
def trimChars (l : List Char) : List Char := ((dropWs ((dropWs l).reverse)).reverse)

/-- Split a character list into its lines at newline characters. -/
def splitLines : List Char → List (List Char)
  | [] => [[]]
  | c :: cs =>
    match splitLines cs with
    | [] => [[c]]
    | h :: t => if c = '\n' then [] :: h :: t else (c :: h) :: t

/-- Join line character-lists with newline characters. -/
def joinCharLines : List (List Char) → List Char
  | [] => []
  | [l] => l
  | l :: l2 :: ls => l ++ '\n' :: joinCharLines (l2 :: ls)

/-- How many lines equal `h` exactly. -/
def countEq (lines : List (List Char)) (h : List Char) : Nat :=
  lines.countP (fun l => l == h)

/-- Index of the first line equal to `h` (`lines.length` when there is none). -/
def idxOfEq (lines : List (List Char)) (h : List Char) : Nat :=
  lines.findIdx (fun l => l == h)

/-- Is a list of indices strictly increasing? -/
def strictIncr : List Nat → Bool
  | [] => true
  | [_] => true
  | a :: b :: r => Nat.blt a b && strictIncr (b :: r)

/-- Modelled from the spec: a reply's lines qualify for `StructuredReport`
when every reserved heading occurs exactly once as a line and the headings
stand in the declared grammar order (§4.4 step 2). -/
def structuredOk (lines : List (List Char)) : Bool :=
  (headings.map String.data).all (fun h => countEq lines h == 1) &&
    strictIncr ((headings.map String.data).map (idxOfEq lines))

/-- Modelled from the spec: the body of the section whose heading stands at
line `i` and whose next recognized heading stands at line `j` — the text
strictly between them, trimmed. -/
def bodyBetween (lines : List (List Char)) (i j : Nat) : String :=
  String.mk (trimChars (joinCharLines ((lines.take j).drop (i + 1))))

/-- Modelled from the spec: the ordered section-name/body mapping extracted
from a qualifying reply (the last section's body runs to the end of text). -/
def extractSections (lines : List (List Char)) : List (String × String) :=
  let is := (headings.map String.data).map (idxOfEq lines)
  let js := is.drop 1 ++ [lines.length]
  (headings.zip (is.zip js)).map (fun p => (p.1, bodyBetween lines p.2.1 p.2.2))

/-- Modelled from the spec: the response classifier of §4.4 (not among the
repository's source files).  Ordered, first match wins: the trimmed reply
equal to the sentinel → `NoVulnerability`; otherwise all eight headings
present exactly once in grammar order → `StructuredReport` with the extracted
bodies; otherwise → `Malformed` with the raw text. -/
def classify (rawReply : String) : ClassificationOutcome :=
  if trimChars rawReply.data = sentinel.data then ClassificationOutcome.NoVulnerability
  else if structuredOk (splitLines (trimChars rawReply.data)) then
    ClassificationOutcome.StructuredReport (extractSections (splitLines (trimChars rawReply.data)))
  else ClassificationOutcome.Malformed rawReply

/-- The declarative reading of the qualification condition of §4.4: every
reserved heading occurs exactly once among the trimmed reply's lines, and the
heading positions are pairwise increasing in the declared grammar order. -/
def StructuredShape (r : String) : Prop :=
  (∀ h ∈ headings, countEq (splitLines (trimChars r.data)) h.data = 1) ∧
    List.Pairwise (· < ·)
      ((headings.map String.data).map (idxOfEq (splitLines (trimChars r.data))))

/-- Lowercased, whitespace-trimmed form of a line, for collision detection. -/
def foldLine (l : String) : List Char := trimChars (l.data.map Char.toLower)

/-- Modelled from the spec: the reserved tokens of §4.1 — the sentinel and the
eight section headings — in folded form. -/
def reservedFolded : List (List Char) := (sentinel :: headings).map foldLine

/-- Modelled from the spec: does a line of free text collide with the sentinel
or a reserved heading (exact match up to case and surrounding whitespace)? -/
def collides (l : String) : Bool := reservedFolded.contains (foldLine l)

/-- Modelled from the spec: the escaper of §4.1 (not among the repository's
source files) — every colliding line is prefixed with a quoting marker, all
other lines pass through unchanged. -/
def sanitize (freeText : String) : String :=
  joinLines (((splitLines freeText.data).map String.mk).map
    (fun l => if collides l then "> " ++ l else l))

/-- Modelled from the spec: the configuration error of §7, raised for an
(ecosystem, phase) pair outside the declared domain. -/
inductive ConfigurationError where
  | unknownPair : ConfigurationError
deriving DecidableEq

/-- The name of an ecosystem tag. -/
def ecoName : Ecosystem → String
  | Ecosystem.CosmosGo => "CosmosGo"
  | Ecosystem.GethGo => "GethGo"
  | Ecosystem.Solidity => "Solidity"

/-- The name of a phase tag. -/
def phaseName : Phase → String
  | Phase.Question => "Question"
  | Phase.Validation => "Validation"

/-- Parse an ecosystem name. -/
def parseEco (s : String) : Option Ecosystem :=
  if s = "CosmosGo" then some Ecosystem.CosmosGo
  else if s = "GethGo" then some Ecosystem.GethGo
  else if s = "Solidity" then some Ecosystem.Solidity
  else none

/-- Parse a phase name. -/
def parsePhase (s : String) : Option Phase :=
  if s = "Question" then some Phase.Question
  else if s = "Validation" then some Phase.Validation
  else none

/-- Modelled from the spec: the registry lookup of §4.2, total over the
declared enum domain; the policy payload of a pair is its fixed template
text (prefix and suffix around the single insertion point). -/
def lookup (e : Ecosystem) (p : Phase) : String × String :=
  (templatePre e p, templateSuf e p)

/-- Modelled from the spec: lookup over raw (unparsed) names, failing with
`ConfigurationError` for every pair outside the declared 3 × 2 domain (§7:
no silent fallback to a default policy). -/
def lookupRaw (eco phase : String) : Except ConfigurationError (String × String) :=
  match parseEco eco, parsePhase phase with
  | some e, some p => Except.ok (lookup e p)
  | _, _ => Except.error ConfigurationError.unknownPair

/-- A reply holding all eight reserved headings, once each, in grammar order. -/
def sampleReport : String :=
  "## Title\nT\n## Summary\nS\n## Impact\nHigh\n## Finding Description\nF\n## Impact Explanation\nIE\n## Likelihood Explanation\nLE\n## Recommendation\nR\n## Proof of Concept\nP"

/-- A reply whose trimmed text strictly contains the sentinel along with
extra prose — here a full structured report after the sentinel line. -/
def mixedReply : String := sentinel ++ "\n" ++ sampleReport
/-! ## String and line algebra -/

theorem strEmpty_append (s : String) : "" ++ s = s := by
  apply String.ext
  show [] ++ s.data = s.data
  exact List.nil_append _

theorem strAppend_empty (s : String) : s ++ "" = s := by
  apply String.ext
  show s.data ++ [] = s.data
  exact List.append_nil _

theorem strAppend_assoc (a b c : String) : a ++ b ++ c = a ++ (b ++ c) := by
  apply String.ext
  show (a.data ++ b.data) ++ c.data = a.data ++ (b.data ++ c.data)
  exact List.append_assoc _ _ _

theorem strLength_empty : ("" : String).length = 0 := rfl

theorem strLength_newline : ("\n" : String).length = 1 := rfl

theorem joinLines_single (l : String) : joinLines [l] = l := rfl

theorem joinLines_cons (l : String) (ls : List String) (h : ls ≠ []) :
    joinLines (l :: ls) = l ++ "\n" ++ joinLines ls := by
  cases ls with
  | nil => exact absurd rfl h
  | cons a as => rfl

theorem joinLines_concat_empty (ls : List String) (h : ls ≠ []) :
    joinLines (ls ++ [""]) = joinLines ls ++ "\n" := by
  induction ls with
  | nil => exact absurd rfl h
  | cons x xs ih =>
    cases xs with
    | nil => exact strAppend_empty _
    | cons y ys =>
      rw [List.cons_append, joinLines_cons x ((y :: ys) ++ [""]) (by simp),
        ih (by simp), joinLines_cons x (y :: ys) (by simp)]
      simp [strAppend_assoc]

theorem joinLines_append (xs ys : List String) (hx : xs ≠ []) (hy : ys ≠ []) :
    joinLines (xs ++ ys) = joinLines xs ++ "\n" ++ joinLines ys := by
  induction xs with
  | nil => exact absurd rfl hx
  | cons x xs' ih =>
    cases xs' with
    | nil =>
      rw [List.singleton_append, joinLines_cons x ys hy, joinLines_single]
    | cons z zs =>
      rw [List.cons_append, joinLines_cons x ((z :: zs) ++ ys) (by simp),
        ih (by simp), joinLines_cons x (z :: zs) (by simp)]
      simp [strAppend_assoc]

theorem one_le_length_joinLines (x y : String) (r : List String) :
    1 ≤ (joinLines (x :: y :: r)).length := by
  rw [joinLines_cons x (y :: r) (by simp)]
  simp [String.length_append, strLength_newline]
  omega

theorem one_le_length_joinLines' (ls : List String) (h : 2 ≤ ls.length) :
    1 ≤ (joinLines ls).length := by
  match ls, h with
  | x :: y :: r, _ => exact one_le_length_joinLines x y r
/-! ## Substring occurrence: decision procedure and occurrence lemmas -/

theorem matchesAt_iff (p : List Char) : ∀ s : List Char,
    (matchesAt p s = true ↔ ∃ b, s = p ++ b) := by
  induction p with
  | nil => intro s; simp [matchesAt]
  | cons q qs ih =>
    intro s
    cases s with
    | nil => simp [matchesAt]
    | cons c cs =>
      rw [show matchesAt (q :: qs) (c :: cs) = (q == c && matchesAt qs cs) from rfl,
        Bool.and_eq_true, beq_iff_eq, ih cs]
      constructor
      · rintro ⟨rfl, b, rfl⟩
        exact ⟨b, rfl⟩
      · rintro ⟨b, hb⟩
        rw [List.cons_append] at hb
        injection hb with h1 h2
        exact ⟨h1.symm, b, h2⟩

theorem containsSub_iff (p : List Char) : ∀ s : List Char,
    (containsSub p s = true ↔ OccC p s) := by
  intro s
  induction s with
  | nil =>
    rw [show containsSub p [] = matchesAt p [] from rfl, matchesAt_iff p []]
    constructor
    · rintro ⟨b, hb⟩
      exact ⟨[], b, by simpa using hb⟩
    · rintro ⟨a, b, hab⟩
      have h2 := hab.symm
      rw [List.append_assoc] at h2
      obtain ⟨-, h3⟩ := List.append_eq_nil.mp h2
      obtain ⟨hp, hb⟩ := List.append_eq_nil.mp h3
      exact ⟨b, by simp [hp, hb]⟩
  | cons c cs ih =>
    rw [show containsSub p (c :: cs) = (matchesAt p (c :: cs) || containsSub p cs) from rfl,
      Bool.or_eq_true, matchesAt_iff p (c :: cs), ih]
    constructor
    · rintro (⟨b, hb⟩ | ⟨a, b, hab⟩)
      · exact ⟨[], b, by simpa using hb⟩
      · exact ⟨c :: a, b, by simp [hab]⟩
    · rintro ⟨a, b, hab⟩
      cases a with
      | nil => exact Or.inl ⟨b, by simpa using hab⟩
      | cons d as =>
        rw [List.cons_append, List.cons_append] at hab
        injection hab with h1 h2
        exact Or.inr ⟨as, b, h2⟩

theorem occC_of_occS (p s : String) (h : OccS p s) : OccC p.data s.data := by
  obtain ⟨a, b, rfl⟩ := h
  exact ⟨a.data, b.data, by simp [String.data_append]⟩

theorem occS_self (p : String) : OccS p p :=
  ⟨"", "", by rw [strEmpty_append, strAppend_empty]⟩

theorem occS_extendL (p s x : String) (h : OccS p s) : OccS p (x ++ s) := by
  obtain ⟨a, b, rfl⟩ := h
  exact ⟨x ++ a, b, by simp [strAppend_assoc]⟩

theorem occS_extendR (p s x : String) (h : OccS p s) : OccS p (s ++ x) := by
  obtain ⟨a, b, rfl⟩ := h
  exact ⟨a, b ++ x, by simp [strAppend_assoc]⟩

theorem occS_join_of_mem (p l : String) (lines : List String) (hmem : l ∈ lines)
    (h : OccS p l) : OccS p (joinLines lines) := by
  induction lines with
  | nil => cases hmem
  | cons x xs ih =>
    cases hmem with
    | head =>
      cases xs with
      | nil => exact h
      | cons y ys =>
        rw [joinLines_cons l (y :: ys) (by simp)]
        exact occS_extendR p (l ++ "\n") (joinLines (y :: ys)) (occS_extendR p l "\n" h)
    | tail _ hmem' =>
      cases xs with
      | nil => cases hmem'
      | cons y ys =>
        rw [joinLines_cons x (y :: ys) (by simp)]
        exact occS_extendL p (joinLines (y :: ys)) (x ++ "\n") (ih hmem')

theorem occS_join_suffix (p : String) (xs ys : List String) (hy : ys ≠ [])
    (h : OccS p (joinLines ys)) : OccS p (joinLines (xs ++ ys)) := by
  induction xs with
  | nil => simpa using h
  | cons x xs' ih =>
    have hne : xs' ++ ys ≠ [] := by
      intro hh
      exact hy (List.append_eq_nil.mp hh).2
    rw [List.cons_append, joinLines_cons x (xs' ++ ys) hne]
    exact occS_extendL p (joinLines (xs' ++ ys)) (x ++ "\n") ih

theorem occS_two_lines (p : String) (lines : List String) (k : Nat) (a b : String)
    (hdrop : lines.drop k = a :: b :: lines.drop (k + 2))
    (hp : p = a ++ "\n" ++ b) : OccS p (joinLines lines) := by
  have hsplit : lines = lines.take k ++ (a :: b :: lines.drop (k + 2)) := by
    rw [← hdrop, List.take_append_drop]
  rw [hsplit]
  apply occS_join_suffix p (lines.take k) _ (by simp)
  cases hrest : lines.drop (k + 2) with
  | nil =>
    subst hp
    rw [joinLines_cons a [b] (by simp), joinLines_single]
    exact occS_self _
  | cons c cs =>
    subst hp
    rw [joinLines_cons a (b :: c :: cs) (by simp), joinLines_cons b (c :: cs) (by simp)]
    exact ⟨"", "\n" ++ joinLines (c :: cs), by simp [strAppend_assoc, strEmpty_append]⟩
/-! ## No occurrence across newline-joined lines -/

theorem stepPfx (p : List Char) : ∀ (x y b : List Char),
    p ++ b = x ++ '\n' :: y → ('\n' : Char) ∉ p → ∃ r, x = p ++ r := by
  induction p with
  | nil => exact fun x _ _ _ _ => ⟨x, rfl⟩
  | cons q qs ih =>
    intro x y b hab hnl
    cases x with
    | nil =>
      rw [List.nil_append, List.cons_append] at hab
      injection hab with h1 _
      exact absurd (h1 ▸ List.mem_cons_self q qs) hnl
    | cons c xs =>
      rw [List.cons_append, List.cons_append] at hab
      injection hab with h1 h2
      obtain ⟨r, hr⟩ := ih xs y b h2 (fun hm => hnl (List.mem_cons_of_mem q hm))
      exact ⟨r, by rw [h1, hr, List.cons_append]⟩

theorem occSplit : ∀ (x a p b y : List Char),
    a ++ p ++ b = x ++ '\n' :: y → ('\n' : Char) ∉ p → OccC p x ∨ OccC p y := by
  intro x
  induction x with
  | nil =>
    intro a p b y hab hnl
    cases a with
    | nil =>
      rw [List.nil_append, List.nil_append] at hab
      cases p with
      | nil => exact Or.inl ⟨[], [], rfl⟩
      | cons q qs =>
        rw [List.cons_append] at hab
        injection hab with h1 _
        exact absurd (h1 ▸ List.mem_cons_self q qs) hnl
    | cons c as =>
      rw [List.nil_append, List.append_assoc, List.cons_append] at hab
      injection hab with _ h2
      exact Or.inr ⟨as, b, by rw [← h2, List.append_assoc]⟩
  | cons c xs ih =>
    intro a p b y hab hnl
    cases a with
    | nil =>
      rw [List.nil_append] at hab
      cases p with
      | nil => exact Or.inl ⟨[], c :: xs, rfl⟩
      | cons q qs =>
        rw [List.cons_append, List.cons_append] at hab
        injection hab with h1 h2
        obtain ⟨r, hr⟩ := stepPfx qs xs y b h2 (fun hm => hnl (List.mem_cons_of_mem q hm))
        exact Or.inl ⟨[], r, by rw [hr, h1, List.nil_append, List.cons_append]⟩
    | cons d as =>
      rw [List.append_assoc, List.cons_append] at hab
      injection hab with h1 h2
      rw [← List.append_assoc] at h2
      rcases ih as p b y h2 hnl with h | h
      · obtain ⟨u, v, huv⟩ := h
        exact Or.inl ⟨c :: u, v, by rw [huv, List.cons_append, List.cons_append]⟩
      · exact Or.inr h
theorem noOccJoin (p : List Char) (hne : p ≠ []) (hnl : ('\n' : Char) ∉ p) :
    ∀ lines : List String, (∀ l ∈ lines, containsSub p l.data = false) →
    ¬ OccC p (joinLines lines).data := by
  intro lines
  induction lines with
  | nil =>
    intro _ hocc
    obtain ⟨a, b, hab⟩ := hocc
    have h2 : a ++ p ++ b = [] := hab.symm
    rw [List.append_assoc] at h2
    exact hne (List.append_eq_nil.mp (List.append_eq_nil.mp h2).2).1
  | cons l ls ih =>
    cases ls with
    | nil =>
      intro hall hocc
      have hl := hall l (List.mem_cons_self l [])
      rw [(containsSub_iff p l.data).mpr hocc] at hl
      exact Bool.true_eq_false.mp hl
    | cons l2 ls2 =>
      intro hall hocc
      have hdata : (joinLines (l :: l2 :: ls2)).data
          = l.data ++ '\n' :: (joinLines (l2 :: ls2)).data := by
        rw [joinLines_cons l (l2 :: ls2) (by simp)]
        show (l.data ++ ['\n']) ++ (joinLines (l2 :: ls2)).data = _
        rw [List.append_assoc]
        rfl
      rw [hdata] at hocc
      obtain ⟨a, b, hab⟩ := hocc
      rcases occSplit l.data a p b (joinLines (l2 :: ls2)).data hab.symm hnl with h | h
      · have hl := hall l (List.mem_cons_self l (l2 :: ls2))
        rw [(containsSub_iff p l.data).mpr h] at hl
        exact Bool.true_eq_false.mp hl
      · exact ih (fun x hx => hall x (List.mem_cons_of_mem l hx)) h
/-! ## Renderer structure -/

theorem render_eq (e : Ecosystem) (p : Phase) (t : String) :
    render e p t = templatePre e p ++ t ++ templateSuf e p := by
  cases e <;> cases p <;> rfl

theorem one_le_templatePre_length (e : Ecosystem) (p : Phase) :
    1 ≤ (templatePre e p).length := by
  cases e <;> cases p
  · exact one_le_length_joinLines' cosmos_q_pre_lines (by decide)
  · exact one_le_length_joinLines' cosmos_v_pre_lines (by decide)
  · exact one_le_length_joinLines' geth_q_pre_lines (by decide)
  · exact one_le_length_joinLines' geth_v_pre_lines (by decide)
  · exact one_le_length_joinLines' sol_q_pre_lines (by decide)
  · exact one_le_length_joinLines' sol_v_pre_lines (by decide)

/-- C6: rendering is deterministic with a single insertion point — for one
(ecosystem, phase) pair, any two renders share the same fixed prefix and
suffix around the substituted region, and the output length is exactly the
template length plus the free text's length (the text is inserted once). -/
theorem render_single_insertion_point (e : Ecosystem) (p : Phase) (t1 t2 : String) :
    render e p t1 = templatePre e p ++ t1 ++ templateSuf e p
    ∧ render e p t2 = templatePre e p ++ t2 ++ templateSuf e p
    ∧ (render e p t1).length
        = (templatePre e p).length + t1.length + (templateSuf e p).length := by
  refine ⟨render_eq e p t1, render_eq e p t2, ?_⟩
  rw [render_eq e p t1, String.length_append, String.length_append]

/-- C9: the rendered prompt is the fixed prefix, the free text verbatim and
the fixed suffix — the text is embedded exactly once (the length grows by
exactly the text's length) and no quoting or escaping is applied, even to
free text equal to the sentinel string. -/
theorem render_embeds_free_text_verbatim (e : Ecosystem) (p : Phase) (t : String) :
    render e p t = templatePre e p ++ t ++ templateSuf e p
    ∧ (render e p t).length = (render e p "").length + t.length
    ∧ render e p sentinel = templatePre e p ++ sentinel ++ templateSuf e p := by
  refine ⟨render_eq e p t, ?_, render_eq e p sentinel⟩
  rw [render_eq e p t, render_eq e p ""]
  simp only [String.length_append, strLength_empty]
  omega

/-- C7: the renderer and the escaper are total — every call returns a string;
a rendered prompt is never empty (for any free text, the empty string
included), and the escaper is defined on the empty string and on the sentinel
itself (which it returns quoted). -/
theorem render_sanitize_total (e : Ecosystem) (p : Phase) (t : String) :
    1 ≤ (render e p t).length
    ∧ sanitize "" = ""
    ∧ sanitize sentinel = "> " ++ sentinel := by
  refine ⟨?_, rfl, rfl⟩
  rw [render_eq e p t, String.length_append, String.length_append]
  have := one_le_templatePre_length e p
  omega

/-! ## Registry lookup -/

/-- C8: the registry lookup is total over the declared 3 × 2 domain, returns
the fixed policy payload of each pair, and fails with `ConfigurationError`
(never a silent fallback) for every pair outside that domain. -/
theorem lookup_total_on_domain_and_fails_outside :
    (∀ (e : Ecosystem) (p : Phase),
        lookupRaw (ecoName e) (phaseName p) = Except.ok (lookup e p))
    ∧ (∀ s q : String, parseEco s = none ∨ parsePhase q = none →
        lookupRaw s q = Except.error ConfigurationError.unknownPair) := by
  constructor
  · intro e p
    cases e <;> cases p <;> rfl
  · intro s q h
    rcases h with h | h
    · cases hq : parsePhase q <;> simp [lookupRaw, h, hq]
    · cases hs : parseEco s <;> simp [lookupRaw, h, hs]

/-- Witness for C8: an ecosystem name outside the declared domain is refused
with a `ConfigurationError`. -/
theorem lookup_fails_outside_witness :
    lookupRaw "Ethereum" "Question" = Except.error ConfigurationError.unknownPair :=
  lookup_total_on_domain_and_fails_outside.2 "Ethereum" "Question" (Or.inl (by decide))
/-! ## Classifier -/

theorem strictIncr_iff_chain (l : List Nat) :
    strictIncr l = true ↔ l.Chain' (· < ·) := by
  induction l with
  | nil => simp [strictIncr]
  | cons a l ih =>
    cases l with
    | nil => simp [strictIncr]
    | cons b r =>
      rw [show strictIncr (a :: b :: r) = (Nat.blt a b && strictIncr (b :: r)) from rfl,
        Bool.and_eq_true, ih, List.chain'_cons, Nat.blt_eq]

theorem structuredOk_iff (r : String) :
    structuredOk (splitLines (trimChars r.data)) = true ↔ StructuredShape r := by
  unfold structuredOk StructuredShape
  rw [Bool.and_eq_true, strictIncr_iff_chain, List.chain'_iff_pairwise, List.all_eq_true]
  constructor
  · rintro ⟨h1, h2⟩
    refine ⟨fun h hm => ?_, h2⟩
    have := h1 h.data (List.mem_map_of_mem String.data hm)
    exact beq_iff_eq.mp (by simpa using this)
  · rintro ⟨h1, h2⟩
    refine ⟨fun x hx => ?_, h2⟩
    obtain ⟨h, hm, rfl⟩ := List.mem_map.mp hx
    simpa using h1 h hm

/-- C2 (amended): the classifier returns `NoVulnerability` exactly when the
trimmed reply is byte-for-byte the sentinel; a trimmed reply that strictly
contains the sentinel (the sentinel occurs in it, yet it does not equal the
sentinel) is never classified `NoVulnerability`. -/
theorem classify_no_vulnerability_iff (r : String) :
    (classify r = ClassificationOutcome.NoVulnerability
        ↔ trimChars r.data = sentinel.data)
    ∧ (OccC sentinel.data (trimChars r.data) → trimChars r.data ≠ sentinel.data →
        classify r ≠ ClassificationOutcome.NoVulnerability) := by
  have key : ∀ hne : trimChars r.data ≠ sentinel.data,
      classify r ≠ ClassificationOutcome.NoVulnerability := by
    intro hne he
    unfold classify at he
    rw [if_neg hne] at he
    by_cases hs : structuredOk (splitLines (trimChars r.data)) = true
    · rw [if_pos hs] at he
      exact ClassificationOutcome.noConfusion he
    · rw [if_neg hs] at he
      exact ClassificationOutcome.noConfusion he
  constructor
  · constructor
    · intro he
      by_contra hne
      exact key hne he
    · intro ht
      unfold classify
      rw [if_pos ht]
  · exact fun _ hne => key hne

/-- Witness for C2: a reply that is the sentinel surrounded by whitespace is
classified `NoVulnerability`. -/
theorem classify_no_vulnerability_iff_witness :
    classify ("  " ++ sentinel ++ " \n") = ClassificationOutcome.NoVulnerability :=
  (classify_no_vulnerability_iff ("  " ++ sentinel ++ " \n")).1.mpr (by decide)

/-- Counterexample for C2 as frozen: a reply that strictly contains the
sentinel together with extra prose is not always `Malformed` — when the extra
prose is a full eight-heading report, the classifier returns
`StructuredReport`. -/
theorem classify_strict_superstring_not_malformed :
    OccC sentinel.data (trimChars mixedReply.data)
    ∧ trimChars mixedReply.data ≠ sentinel.data
    ∧ classify mixedReply
        = ClassificationOutcome.StructuredReport
            (extractSections (splitLines (trimChars mixedReply.data)))
    ∧ classify mixedReply ≠ ClassificationOutcome.Malformed mixedReply :=
  ⟨(containsSub_iff sentinel.data (trimChars mixedReply.data)).mp (by decide),
    by decide, by decide, by decide⟩

/-- C3: the classifier is total — on a reply whose trimmed text is not the
sentinel it returns `StructuredReport` with the extracted section bodies
exactly when every reserved heading occurs exactly once, in the declared
grammar order, and otherwise `Malformed` carrying the raw text. -/
theorem classify_structured_or_malformed (r : String)
    (h : trimChars r.data ≠ sentinel.data) :
    (classify r = ClassificationOutcome.StructuredReport
          (extractSections (splitLines (trimChars r.data)))
        ↔ StructuredShape r)
    ∧ (¬ StructuredShape r → classify r = ClassificationOutcome.Malformed r) := by
  have hc : classify r
      = if structuredOk (splitLines (trimChars r.data)) = true then
          ClassificationOutcome.StructuredReport
            (extractSections (splitLines (trimChars r.data)))
        else ClassificationOutcome.Malformed r := by
    unfold classify
    rw [if_neg h]
  by_cases hs : structuredOk (splitLines (trimChars r.data)) = true
  · rw [hc, if_pos hs]
    exact ⟨⟨fun _ => (structuredOk_iff r).mp hs, fun _ => rfl⟩,
      fun hn => absurd ((structuredOk_iff r).mp hs) hn⟩
  · rw [hc, if_neg hs]
    exact ⟨⟨fun he => ClassificationOutcome.noConfusion he,
      fun hstr => absurd ((structuredOk_iff r).mpr hstr) hs⟩, fun _ => rfl⟩

/-- Witness for C3: a reply holding all eight headings once each, in order,
is classified `StructuredReport`. -/
theorem classify_structured_or_malformed_witness :
    classify sampleReport = ClassificationOutcome.StructuredReport
      (extractSections (splitLines (trimChars sampleReport.data))) :=
  (classify_structured_or_malformed sampleReport (by decide)).1.mpr
    ((structuredOk_iff sampleReport).mp (by decide))
/-! ## What the solidity templates actually instruct for "no finding" -/

theorem occ_unhashed_variant :
    OccS "No vulnerability found for this question." sol_q_suf :=
  occS_join_of_mem "No vulnerability found for this question."
    "- If you do **not** find any valid vulnerability, you MUST clearly say: **\"No vulnerability found for this question.\"**"
    sol_q_suf_lines (by decide)
    ⟨"- If you do **not** find any valid vulnerability, you MUST clearly say: **\"", "\"**", by decide⟩

theorem occ_misspelled_variant :
    OccS "#Noulnerability found." sol_q_suf :=
  occS_join_of_mem "#Noulnerability found."
    "- Be 100% certain the issue is exploitable. When in doubt, report **“#Noulnerability found.”**"
    sol_q_suf_lines (by decide)
    ⟨"- Be 100% certain the issue is exploitable. When in doubt, report **“", "”**", by decide⟩

theorem occ_sentinel_with_trailing_text :
    OccS (sentinel ++ " Note Put the hashtag ") sol_q_suf :=
  occS_join_of_mem (sentinel ++ " Note Put the hashtag ")
    "#NoVulnerability found for this question. Note Put the hashtag "
    sol_q_suf_lines (by decide)
    ⟨"", "", by decide⟩

theorem occ_sentinel_extra_line_validation :
    OccS ("     " ++ sentinel ++ "\n"
        ++ "     Pls very important because this is what i would use to know automated if its invalid ")
      sol_v_suf :=
  occS_two_lines _ sol_v_suf_lines 87
    "     #NoVulnerability found for this question."
    "     Pls very important because this is what i would use to know automated if its invalid "
    (by decide) (by decide)
theorem occ_sentinel_sol_q : OccS sentinel sol_q_suf :=
  occS_join_of_mem sentinel
    "#NoVulnerability found for this question. Note Put the hashtag "
    sol_q_suf_lines (by decide)
    ⟨"", " Note Put the hashtag ", by decide⟩

/-- C1: the Solidity question prompt does not instruct one single no-finding
sentinel — alongside the exact sentinel it instructs the unhashed variant
"No vulnerability found for this question.", the misspelled variant
"#Noulnerability found." and a sentinel line carrying extra trailing text. -/
theorem solidity_prompt_instructs_other_no_finding_lines (t : String) :
    OccS "No vulnerability found for this question." (solidity_question.question_format t)
    ∧ OccS "#Noulnerability found." (solidity_question.question_format t)
    ∧ OccS (sentinel ++ " Note Put the hashtag ") (solidity_question.question_format t) :=
  ⟨occS_extendL _ sol_q_suf (sol_q_pre ++ t) occ_unhashed_variant,
    occS_extendL _ sol_q_suf (sol_q_pre ++ t) occ_misspelled_variant,
    occS_extendL _ sol_q_suf (sol_q_pre ++ t) occ_sentinel_with_trailing_text⟩

/-- C10: the rendered Solidity question prompt contains, as fixed template
text, the unhashed no-finding line and the misspelled "#Noulnerability
found." alongside the exact sentinel; and the rendered Solidity validation
prompt shows the no-finding output as the sentinel line followed by one more
line of text. -/
theorem solidity_no_finding_text_matches_code (t : String) :
    OccS "No vulnerability found for this question." (solidity_question.question_format t)
    ∧ OccS "#Noulnerability found." (solidity_question.question_format t)
    ∧ OccS sentinel (solidity_question.question_format t)
    ∧ OccS ("     " ++ sentinel ++ "\n"
        ++ "     Pls very important because this is what i would use to know automated if its invalid ")
        (solidity_question.validation_format t) :=
  ⟨occS_extendL _ sol_q_suf (sol_q_pre ++ t) occ_unhashed_variant,
    occS_extendL _ sol_q_suf (sol_q_pre ++ t) occ_misspelled_variant,
    occS_extendL _ sol_q_suf (sol_q_pre ++ t) occ_sentinel_sol_q,
    occS_extendL _ sol_v_suf (sol_v_pre ++ t) occ_sentinel_extra_line_validation⟩

/-- C4 at the failing input: rendering the Solidity validation prompt with
free text equal to the sentinel embeds the sentinel verbatim as a line of its
own — no quoting marker is applied, so the embedded copy is indistinguishable
from a structural sentinel line. -/
theorem solidity_validation_embeds_sentinel_unquoted :
    OccS ("\n" ++ sentinel ++ "\n") (solidity_question.validation_format sentinel) := by
  have hpre : sol_v_pre = joinLines sol_v_pre_lines.dropLast ++ "\n" := by
    show joinLines sol_v_pre_lines = _
    nth_rewrite 1 [show sol_v_pre_lines = sol_v_pre_lines.dropLast ++ [""] from rfl]
    rw [joinLines_concat_empty _ (by decide)]
  have hsuf : sol_v_suf = "\n" ++ joinLines (sol_v_suf_lines.drop 1) := by
    show joinLines sol_v_suf_lines = _
    nth_rewrite 1 [show sol_v_suf_lines = "" :: sol_v_suf_lines.drop 1 from rfl]
    rw [joinLines_cons _ _ (by decide), strEmpty_append]
  show OccS _ (sol_v_pre ++ sentinel ++ sol_v_suf)
  rw [hpre, hsuf]
  exact ⟨joinLines sol_v_pre_lines.dropLast, joinLines (sol_v_suf_lines.drop 1),
    by simp [strAppend_assoc]⟩

theorem occS_mono_pfx (p r s : String) (h : OccS (p ++ r) s) : OccS p s := by
  obtain ⟨a, b, hab⟩ := h
  exact ⟨a, r ++ b, by rw [hab]; simp [strAppend_assoc]⟩

theorem cosmos_validation_no_heading_marker :
    ¬ OccS "## " (render Ecosystem.CosmosGo Phase.Validation "") := by
  intro h
  have hrender : render Ecosystem.CosmosGo Phase.Validation ""
      = joinLines (cosmos_v_pre_lines.dropLast ++ cosmos_v_suf_lines) := by
    show cosmos_v_pre ++ "" ++ cosmos_v_suf = _
    rw [strAppend_empty, joinLines_append _ _ (by decide) (by decide)]
    have hpre2 : joinLines cosmos_v_pre_lines
        = joinLines cosmos_v_pre_lines.dropLast ++ "\n" := by
      nth_rewrite 1 [show cosmos_v_pre_lines = cosmos_v_pre_lines.dropLast ++ [""] from rfl]
      rw [joinLines_concat_empty _ (by decide)]
    show joinLines cosmos_v_pre_lines ++ joinLines cosmos_v_suf_lines = _
    rw [hpre2]
  rw [hrender] at h
  exact noOccJoin "## ".data (by decide) (by decide)
    (cosmos_v_pre_lines.dropLast ++ cosmos_v_suf_lines) (by decide)
    (occC_of_occS _ _ h)

/-- C5 at the failing input: the rendered CosmosGo validation prompt contains
none of the eight reserved section headings — the six (ecosystem, phase)
variants do not share the eight-heading output grammar. -/
theorem cosmos_validation_prompt_lacks_grammar_headings :
    ∀ h ∈ headings, ¬ OccS h (render Ecosystem.CosmosGo Phase.Validation "") := by
  intro h hm hocc
  apply cosmos_validation_no_heading_marker
  fin_cases hm
  · exact occS_mono_pfx "## " "Title" _ hocc
  · exact occS_mono_pfx "## " "Summary" _ hocc
  · exact occS_mono_pfx "## " "Impact" _ hocc
  · exact occS_mono_pfx "## " "Finding Description" _ hocc
  · exact occS_mono_pfx "## " "Impact Explanation" _ hocc
  · exact occS_mono_pfx "## " "Likelihood Explanation" _ hocc
  · exact occS_mono_pfx "## " "Recommendation" _ hocc
  · exact occS_mono_pfx "## " "Proof of Concept" _ hocc

/-- Witness for C5's theorem: "## Title" in particular never occurs in the
rendered CosmosGo validation prompt. -/
theorem cosmos_validation_lacks_title_heading :
    ¬ OccS "## Title" (render Ecosystem.CosmosGo Phase.Validation "") :=
  cosmos_validation_prompt_lacks_grammar_headings "## Title" (by decide)
